import Mathlib

/-!
# Verification of the covid19 Dagster pipeline (`src/covid19/assets.py`)

Shallow embedding of the pipeline's data model and tasks:

* A pandas `DataFrame` is a list of column names plus rows, each row an
  association list from column name to cell value.
* The database is a `DBState`: a list of created schemas plus an association
  list from (schema, table) keys to tables.
* Each Dagster asset (`pull_cases`, `generate_calendar`, `generate_countries`,
  `pull_deaths`, `pull_vaccinations`, `pull_hospital_admissions`,
  `pull_excess_mortality`) becomes a function `DBState → Except String DBState`
  (taking the remote fetch result as an explicit `Except String DataFrame`
  argument, since network failure aborts the task).
* The Dagster scheduler itself is not part of the repository; its run
  semantics are modelled from the spec as a predicate on execution traces.
-/

set_option autoImplicit false

namespace Covid19

instance {ε α : Type} [DecidableEq ε] [DecidableEq α] : DecidableEq (Except ε α) := fun x y =>
  match x, y with
  | Except.ok a, Except.ok b =>
      if h : a = b then Decidable.isTrue (by rw [h])
      else Decidable.isFalse (fun hc => h (Except.ok.inj hc))
  | Except.error a, Except.error b =>
      if h : a = b then Decidable.isTrue (by rw [h])
      else Decidable.isFalse (fun hc => h (Except.error.inj hc))
  | Except.ok _, Except.error _ => Decidable.isFalse (fun hc => Except.noConfusion hc)
  | Except.error _, Except.ok _ => Decidable.isFalse (fun hc => Except.noConfusion hc)

/-- A cell value of a table: NULL, a string, an integer, or a calendar date
(year, month, day) standing for a pandas datetime value. -/
inductive Value where
  | vNull : Value
  | vStr : String → Value
  | vInt : Int → Value
  | vDate : Nat → Nat → Nat → Value
  deriving DecidableEq, Repr

/-- A row of a table: an association list from column name to value. -/
abbrev Row : Type := List (String × Value)

/-- Value of a row at a column, if the column is present. -/
def Row.get (r : Row) (c : String) : Option Value :=
  (List.find? (fun p => decide (p.1 = c)) r).map (fun p => p.2)

/-- Value of a row at a column, reading an absent column as SQL NULL. -/
def Row.getD (r : Row) (c : String) : Value :=
  (r.get c).getD Value.vNull

/-- A pandas DataFrame: an ordered list of column labels and a list of rows. -/
structure DataFrame where
  cols : List String
  rows : List Row
  deriving DecidableEq, Repr

/-- Embedding of `df.rename(columns={old: new})`: every column labelled `old`
is relabelled `new`, in the header and in each row. -/
def DataFrame.rename (df : DataFrame) (old new : String) : DataFrame where
  cols := df.cols.map (fun c => if c = old then new else c)
  rows := df.rows.map (fun r => r.map (fun p => if p.1 = old then (new, p.2) else p))

/-- Embedding of `df.drop(columns=labels, errors=...)`: with `errors="ignore"`
(`ignoreAbsent = true`) absent labels are tolerated; with `errors="raise"` an
absent label is a KeyError. Listed columns are removed from the header and
from every row. -/
def DataFrame.drop (df : DataFrame) (labels : List String) (ignoreAbsent : Bool) :
    Except String DataFrame :=
  if !ignoreAbsent && labels.any (fun c => decide (c ∉ df.cols)) then
    Except.error "KeyError: labels not found in axis"
  else
    Except.ok
      { cols := df.cols.filter (fun c => decide (c ∉ labels))
        rows := df.rows.map (fun r => r.filter (fun p => decide (p.1 ∉ labels))) }

/-- The join keys pandas picks for `df1.merge(df2)` with no `on=` argument:
the columns common to both frames, in `df1`'s column order. -/
def mergeKeys (df1 df2 : DataFrame) : List String :=
  df1.cols.filter (fun c => decide (c ∈ df2.cols))

/-- Embedding of `df1.merge(df2)` (pandas default: inner join on all common
columns, erroring when there are none). The result keeps `df1`'s columns
followed by `df2`'s non-common columns; each output row is a left row that
agrees with some right row on every common column, extended with that right
row's non-common cells. Left row order is preserved. -/
def DataFrame.merge (df1 df2 : DataFrame) : Except String DataFrame :=
  let keys := mergeKeys df1 df2
  if keys.isEmpty then
    Except.error "MergeError: no common columns to perform merge on"
  else
    Except.ok
      { cols := df1.cols ++ df2.cols.filter (fun c => decide (c ∉ df1.cols))
        rows := df1.rows.flatMap (fun r1 =>
          (df2.rows.filter (fun r2 =>
              keys.all (fun c => decide (r1.get c = r2.get c)))).map
            (fun r2 => r1 ++ r2.filter (fun p => decide (p.1 ∉ df1.cols)))) }

/-- Embedding of `select distinct [c] from t`: the single-column table of the
distinct values of column `c` (an absent cell reads as NULL). -/
def selectDistinct (df : DataFrame) (c : String) : DataFrame where
  cols := [c]
  rows := ((df.rows.map (fun r => r.getD c)).dedup).map (fun v => [(c, v)])

/-- Row-wise part of `addDateParts`: extend each row with the year, month and
day of its `date` cell; a non-datetime cell makes the `.dt` accessor fail. -/
def datePartsRows : List Row → Except String (List Row)
  | [] => Except.ok []
  | r :: rest =>
    match r.get "date" with
    | some (Value.vDate y m d) => do
        let rs ← datePartsRows rest
        Except.ok ((r ++ [("year", Value.vInt y), ("month", Value.vInt m),
                          ("day", Value.vInt d)]) :: rs)
    | _ => Except.error "AttributeError: can only use .dt accessor with datetimelike values"

/-- Embedding of lines 95-97 of `generate_calendar`
(`df["year"] = df["date"].dt.year` etc.): appends `year`, `month`, `day`
columns decomposed from the `date` column; the `.dt` accessor fails on a
non-datetime value. -/
def addDateParts (df : DataFrame) : Except String DataFrame := do
  let rows ← datePartsRows df.rows
  Except.ok { cols := df.cols ++ ["year", "month", "day"], rows := rows }

/-- Key of a stored table: (schema name, table name). -/
abbrev TableKey : Type := String × String

/-- The database: the set of created schemas and the stored tables. -/
structure DBState where
  schemas : List String
  tables : List (TableKey × DataFrame)
  deriving DecidableEq

/-- First table stored under a key, if any. -/
def lookupTable : List (TableKey × DataFrame) → TableKey → Option DataFrame
  | [], _ => none
  | p :: rest, k => if p.1 = k then some p.2 else lookupTable rest k

/-- Replace the table stored under a key (or append it if absent). -/
def storeTable (l : List (TableKey × DataFrame)) (k : TableKey) (v : DataFrame) :
    List (TableKey × DataFrame) :=
  match l with
  | [] => [(k, v)]
  | p :: rest => if p.1 = k then (k, v) :: rest else p :: storeTable rest k v

/-- The table stored in the database under schema `s` and name `t`. -/
def readTable (db : DBState) (s t : String) : Option DataFrame :=
  lookupTable db.tables (s, t)

/-- Embedding of `db_create_schema` (assets.py lines 28-30): create the schema
only when it does not already exist. -/
def db_create_schema (schema_name : String) (db : DBState) : DBState :=
  if schema_name ∈ db.schemas then db
  else { db with schemas := db.schemas ++ [schema_name] }

/-- Interpretation of the four SQL query strings the pipeline issues, against
the database state. An unknown query or a missing table yields `none` (which
`pd.read_sql` surfaces as an error). -/
def evalQuery (db : DBState) (q : String) : Option DataFrame :=
  if q = "select distinct [date] from fact.daily_cases" then
    (readTable db "fact" "daily_cases").map (fun t => selectDistinct t "date")
  else if q = "select distinct [country] from fact.daily_cases" then
    (readTable db "fact" "daily_cases").map (fun t => selectDistinct t "country")
  else if q = "select distinct [date] from dim.calendar" then
    (readTable db "dim" "calendar").map (fun t => selectDistinct t "date")
  else if q = "select distinct [country] from dim.country" then
    (readTable db "dim" "country").map (fun t => selectDistinct t "country")
  else none

/-- Embedding of `db_run_query` (assets.py lines 32-44). The first component
is the list of SQL statements actually sent to the database connection, the
second the returned table: when `return_table` is true the query is executed
via `pd.read_sql` and its table returned; otherwise the body is skipped. -/
def db_run_query (db : DBState) (query_string : String) (return_table : Bool) :
    List String × Option DataFrame :=
  if return_table then ([query_string], evalQuery db query_string)
  else ([], none)

/-- Embedding of `write_data_to_db` (assets.py lines 46-64) with the pipeline's
`insert_type="replace"`: the stored table under (schema, table_name) is fully
replaced by `df`. -/
def write_data_to_db (df : DataFrame) (table_name schema : String) (db : DBState) :
    DBState :=
  { db with tables := storeTable db.tables (schema, table_name) df }

/-- Lift the optional result of `db_run_query` into the task's error monad:
`pd.read_sql` raises when the query cannot be answered. -/
def queryResult (r : List String × Option DataFrame) : Except String DataFrame :=
  match r.2 with
  | some df => Except.ok df
  | none => Except.error "DatabaseError: execution failed"

/-- Embedding of the asset `pull_cases` (assets.py lines 66-83). The remote
fetch `pd.read_json(url)` is the explicit `fetch` argument (its failure is a
raised exception, i.e. `Except.error`). The task renames `location` to
`country`, creates the `fact` schema if absent, and writes the frame to
`fact.daily_cases` with replace semantics. -/
def pull_cases (fetch : Except String DataFrame) (db : DBState) :
    Except String DBState := do
  let df ← fetch
  let df := df.rename "location" "country"
  let db := db_create_schema "fact" db
  Except.ok (write_data_to_db df "daily_cases" "fact" db)

/-- Embedding of the asset `generate_calendar` (assets.py lines 85-103):
reads the distinct dates of `fact.daily_cases`, decomposes each into
year/month/day, creates the `dim` schema if absent, and writes the result to
`dim.calendar` with replace semantics. -/
def generate_calendar (db : DBState) : Except String DBState := do
  let df ← queryResult (db_run_query db "select distinct [date] from fact.daily_cases" true)
  let df ← addDateParts df
  let db := db_create_schema "dim" db
  Except.ok (write_data_to_db df "calendar" "dim" db)

/-- Embedding of the asset `generate_countries` (assets.py lines 105-118):
reads the distinct countries of `fact.daily_cases`, creates the `dim` schema
if absent, and writes the result to `dim.country` with replace semantics. -/
def generate_countries (db : DBState) : Except String DBState := do
  let df ← queryResult (db_run_query db "select distinct [country] from fact.daily_cases" true)
  let db := db_create_schema "dim" db
  Except.ok (write_data_to_db df "country" "dim" db)

/-- Embedding of the asset `pull_deaths` (assets.py lines 120-148): fetch the
deaths dataset, drop a `continent` column (tolerating its absence), rename
`location` to `country`, inner-join against the distinct dates of
`dim.calendar` and the distinct countries of `dim.country`, and write the
result to `fact.daily_deaths` with replace semantics. -/
def pull_deaths (fetch : Except String DataFrame) (db : DBState) :
    Except String DBState := do
  let df ← fetch
  let df ← df.drop ["continent"] true
  let df := df.rename "location" "country"
  let df_date ← queryResult (db_run_query db "select distinct [date] from dim.calendar" true)
  let df_country ← queryResult (db_run_query db "select distinct [country] from dim.country" true)
  let df ← df.merge df_date
  let df ← df.merge df_country
  Except.ok (write_data_to_db df "daily_deaths" "fact" db)

/-- Embedding of the asset `pull_vaccinations` (assets.py lines 150-175):
fetch, rename `location` to `country`, join against both dimensions, write to
`fact.daily_vaccinations`. -/
def pull_vaccinations (fetch : Except String DataFrame) (db : DBState) :
    Except String DBState := do
  let df ← fetch
  let df := df.rename "location" "country"
  let df_date ← queryResult (db_run_query db "select distinct [date] from dim.calendar" true)
  let df_country ← queryResult (db_run_query db "select distinct [country] from dim.country" true)
  let df ← df.merge df_date
  let df ← df.merge df_country
  Except.ok (write_data_to_db df "daily_vaccinations" "fact" db)

/-- Embedding of the asset `pull_hospital_admissions` (assets.py lines
177-202): fetch, rename `location` to `country`, join against both
dimensions, write to `fact.daily_hospital_admissions`. -/
def pull_hospital_admissions (fetch : Except String DataFrame) (db : DBState) :
    Except String DBState := do
  let df ← fetch
  let df := df.rename "location" "country"
  let df_date ← queryResult (db_run_query db "select distinct [date] from dim.calendar" true)
  let df_country ← queryResult (db_run_query db "select distinct [country] from dim.country" true)
  let df ← df.merge df_date
  let df ← df.merge df_country
  Except.ok (write_data_to_db df "daily_hospital_admissions" "fact" db)

/-- Embedding of the asset `pull_excess_mortality` (assets.py lines 204-229):
fetch, rename `location` to `country`, join against both dimensions, write to
`fact.daily_excess_mortality`. -/
def pull_excess_mortality (fetch : Except String DataFrame) (db : DBState) :
    Except String DBState := do
  let df ← fetch
  let df := df.rename "location" "country"
  let df_date ← queryResult (db_run_query db "select distinct [date] from dim.calendar" true)
  let df_country ← queryResult (db_run_query db "select distinct [country] from dim.country" true)
  let df ← df.merge df_date
  let df ← df.merge df_country
  Except.ok (write_data_to_db df "daily_excess_mortality" "fact" db)

/-- The remote source snapshot: the result of `pd.read_json` at each of the
five fixed URLs (a failed fetch is an `Except.error`). -/
structure RemoteSource where
  casesData : Except String DataFrame
  deathsData : Except String DataFrame
  vaccinationsData : Except String DataFrame
  hospitalData : Except String DataFrame
  excessData : Except String DataFrame

/-- One full pipeline run: the seven assets executed in a topological order
of the declared dependency graph. -/
def runPipeline (src : RemoteSource) (db : DBState) : Except String DBState := do
  let db ← pull_cases src.casesData db
  let db ← generate_calendar db
  let db ← generate_countries db
  let db ← pull_deaths src.deathsData db
  let db ← pull_vaccinations src.vaccinationsData db
  let db ← pull_hospital_admissions src.hospitalData db
  let db ← pull_excess_mortality src.excessData db
  Except.ok db

/-- The seven Dagster assets, as task-graph nodes. -/
inductive TaskNode where
  | pullCases
  | generateCalendar
  | generateCountries
  | pullDeaths
  | pullVaccinations
  | pullHospitalAdmissions
  | pullExcessMortality
  deriving DecidableEq, Repr

/-- The dependency edges declared by the `@asset(deps=[...])` decorators in
assets.py (lines 66, 85, 105, 120, 150, 177, 204). -/
def taskDeps : TaskNode → List TaskNode
  | TaskNode.pullCases => []
  | TaskNode.generateCalendar => [TaskNode.pullCases]
  | TaskNode.generateCountries => [TaskNode.pullCases]
  | TaskNode.pullDeaths => [TaskNode.generateCalendar, TaskNode.generateCountries]
  | TaskNode.pullVaccinations => [TaskNode.generateCalendar, TaskNode.generateCountries]
  | TaskNode.pullHospitalAdmissions => [TaskNode.generateCalendar, TaskNode.generateCountries]
  | TaskNode.pullExcessMortality => [TaskNode.generateCalendar, TaskNode.generateCountries]

/-- Modelled from the spec: the Dagster scheduler's run semantics are not in
this repository, so an execution is modelled per the spec sentence "no task
may start before all of its declared dependencies have successfully
completed". A trace lists the tasks of a run in start order, each paired
with whether it succeeded; a trace is valid when no task starts twice
and every declared dependency of a started task completed successfully at an
earlier position. -/
def ValidTrace (tr : List (TaskNode × Bool)) : Prop :=
  (tr.map Prod.fst).Nodup ∧
  ∀ i, ∀ hi : i < tr.length, ∀ d ∈ taskDeps (tr.get ⟨i, hi⟩).1, (d, true) ∈ tr.take i

instance (tr : List (TaskNode × Bool)) : Decidable (ValidTrace tr) := by
  unfold ValidTrace
  exact instDecidableAnd

/-! ## Basic lemmas about the embedding -/

theorem except_bind_ok {α β : Type} (a : α) (f : α → Except String β) :
    (bind (Except.ok a) f : Except String β) = f a := rfl

theorem except_bind_error {α β : Type} (e : String) (f : α → Except String β) :
    (bind (Except.error e) f : Except String β) = Except.error e := rfl

theorem Row.get_cons (k : String) (v : Value) (r : Row) (c : String) :
    Row.get ((k, v) :: r) c = if k = c then some v else r.get c := by
  simp only [Row.get, List.find?_cons]
  by_cases h : k = c
  · simp [h]
  · simp [h]

theorem Row.get_singleton (c : String) (v : Value) : Row.get [(c, v)] c = some v := by
  simp [Row.get_cons, Row.get]

theorem Row.get_append_left {r1 : Row} {c : String} {v : Value} (r2 : Row)
    (h : r1.get c = some v) : Row.get (r1 ++ r2) c = some v := by
  simp only [Row.get, List.find?_append] at h ⊢
  rcases h' : List.find? (fun p => decide (p.1 = c)) r1 with _ | p
  · simp [h'] at h
  · simp [h'] at h ⊢
    simp [Option.or, h]

theorem Row.getD_eq_of_get {r : Row} {c : String} {v : Value} (h : r.get c = some v) :
    r.getD c = v := by
  simp [Row.getD, h]

/-! ### DataFrame operation lemmas -/

theorem DataFrame.drop_ignore (df : DataFrame) (labels : List String) :
    df.drop labels true =
      Except.ok
        { cols := df.cols.filter (fun c => decide (c ∉ labels))
          rows := df.rows.map (fun r => r.filter (fun p => decide (p.1 ∉ labels))) } := rfl

theorem selectDistinct_cols (df : DataFrame) (c : String) :
    (selectDistinct df c).cols = [c] := rfl

theorem selectDistinct_rows_mem {df : DataFrame} {c : String} {r : Row} :
    r ∈ (selectDistinct df c).rows ↔
      ∃ v, v ∈ (df.rows.map (fun rr => rr.getD c)).dedup ∧ r = [(c, v)] := by
  simp only [selectDistinct, List.mem_map]
  constructor
  · rintro ⟨v, hv, rfl⟩; exact ⟨v, hv, rfl⟩
  · rintro ⟨v, hv, rfl⟩; exact ⟨v, hv, rfl⟩

theorem mergeKeys_mem_left {df1 df2 : DataFrame} {c : String}
    (h : c ∈ mergeKeys df1 df2) : c ∈ df1.cols :=
  (List.mem_filter.mp h).1

theorem mergeKeys_mem_right {df1 df2 : DataFrame} {c : String}
    (h : c ∈ mergeKeys df1 df2) : c ∈ df2.cols :=
  of_decide_eq_true (List.mem_filter.mp h).2

theorem mem_mergeKeys {df1 df2 : DataFrame} {c : String}
    (h1 : c ∈ df1.cols) (h2 : c ∈ df2.cols) : c ∈ mergeKeys df1 df2 :=
  List.mem_filter.mpr ⟨h1, decide_eq_true h2⟩

theorem merge_ok_elim {df1 df2 m : DataFrame} (h : df1.merge df2 = Except.ok m) :
    mergeKeys df1 df2 ≠ [] ∧
    m.cols = df1.cols ++ df2.cols.filter (fun c => decide (c ∉ df1.cols)) ∧
    m.rows = df1.rows.flatMap (fun r1 =>
      (df2.rows.filter (fun r2 =>
          (mergeKeys df1 df2).all (fun c => decide (r1.get c = r2.get c)))).map
        (fun r2 => r1 ++ r2.filter (fun p => decide (p.1 ∉ df1.cols)))) := by
  unfold DataFrame.merge at h
  by_cases hk : (mergeKeys df1 df2).isEmpty
  · simp [hk] at h
  · simp only [hk, Bool.false_eq_true, if_false, Except.ok.injEq] at h
    refine ⟨fun hnil => ?_, ?_, ?_⟩
    · rw [hnil] at hk; simp at hk
    · rw [← h]
    · rw [← h]

theorem merge_rows_mem {df1 df2 m : DataFrame} (h : df1.merge df2 = Except.ok m)
    {r : Row} (hr : r ∈ m.rows) :
    ∃ r1 ∈ df1.rows, ∃ r2 ∈ df2.rows,
      (∀ c ∈ mergeKeys df1 df2, r1.get c = r2.get c) ∧
      r = r1 ++ r2.filter (fun p => decide (p.1 ∉ df1.cols)) := by
  rw [(merge_ok_elim h).2.2] at hr
  rcases List.mem_flatMap.mp hr with ⟨r1, hr1, hmem⟩
  rcases List.mem_map.mp hmem with ⟨r2, hr2, rfl⟩
  rcases List.mem_filter.mp hr2 with ⟨hr2', hall⟩
  refine ⟨r1, hr1, r2, hr2', fun c hc => ?_, rfl⟩
  exact of_decide_eq_true (List.all_eq_true.mp hall c hc)

theorem merge_rows_intro {df1 df2 m : DataFrame} (h : df1.merge df2 = Except.ok m)
    {r1 r2 : Row} (hr1 : r1 ∈ df1.rows) (hr2 : r2 ∈ df2.rows)
    (hmatch : ∀ c ∈ mergeKeys df1 df2, r1.get c = r2.get c) :
    r1 ++ r2.filter (fun p => decide (p.1 ∉ df1.cols)) ∈ m.rows := by
  rw [(merge_ok_elim h).2.2]
  refine List.mem_flatMap.mpr ⟨r1, hr1, List.mem_map.mpr ⟨r2, ?_, rfl⟩⟩
  refine List.mem_filter.mpr ⟨hr2, List.all_eq_true.mpr fun c hc => ?_⟩
  exact decide_eq_true (hmatch c hc)

/-! ### Storage lemmas -/

theorem lookupTable_storeTable (l : List (TableKey × DataFrame)) (k : TableKey)
    (v : DataFrame) (k' : TableKey) :
    lookupTable (storeTable l k v) k' = if k' = k then some v else lookupTable l k' := by
  induction l with
  | nil =>
      simp only [storeTable, lookupTable]
      by_cases h : k = k'
      · rw [if_pos h, if_pos h.symm]
      · rw [if_neg h, if_neg (fun e => h e.symm)]
  | cons p rest ih =>
      simp only [storeTable]
      by_cases hp : p.1 = k
      · rw [if_pos hp]
        simp only [lookupTable]
        by_cases h : k = k'
        · rw [if_pos h, if_pos h.symm]
        · rw [if_neg h, if_neg (fun e => h e.symm),
            if_neg (fun e : p.1 = k' => h (hp ▸ e))]
      · rw [if_neg hp]
        simp only [lookupTable]
        by_cases hpk : p.1 = k'
        · rw [if_pos hpk, if_pos hpk,
            if_neg (fun e : k' = k => hp (e ▸ hpk))]
        · rw [if_neg hpk, if_neg hpk, ih]

theorem storeTable_eq_of_lookup {l : List (TableKey × DataFrame)} {k : TableKey}
    {v : DataFrame} (h : lookupTable l k = some v) : storeTable l k v = l := by
  induction l with
  | nil => simp [lookupTable] at h
  | cons p rest ih =>
      simp only [lookupTable] at h
      simp only [storeTable]
      by_cases hp : p.1 = k
      · rw [if_pos hp] at h
        injection h with h
        rw [if_pos hp, ← h, ← hp]
      · rw [if_neg hp] at h
        rw [if_neg hp, ih h]

theorem readTable_write (df : DataFrame) (tn sn : String) (db : DBState) (s t : String) :
    readTable (write_data_to_db df tn sn db) s t =
      if (s, t) = (sn, tn) then some df else readTable db s t := by
  simp [readTable, write_data_to_db, lookupTable_storeTable]

theorem write_eq_of_readTable {df : DataFrame} {tn sn : String} {db : DBState}
    (h : readTable db sn tn = some df) : write_data_to_db df tn sn db = db := by
  simp only [write_data_to_db]
  rw [storeTable_eq_of_lookup h]

theorem tables_db_create_schema (n : String) (db : DBState) :
    (db_create_schema n db).tables = db.tables := by
  unfold db_create_schema
  split <;> rfl

theorem readTable_db_create_schema (n : String) (db : DBState) (s t : String) :
    readTable (db_create_schema n db) s t = readTable db s t := by
  simp [readTable, tables_db_create_schema]

theorem schemas_write (df : DataFrame) (tn sn : String) (db : DBState) :
    (write_data_to_db df tn sn db).schemas = db.schemas := rfl

theorem mem_schemas_db_create_schema (n : String) (db : DBState) (m : String) :
    m ∈ (db_create_schema n db).schemas ↔ m ∈ db.schemas ∨ m = n := by
  unfold db_create_schema
  by_cases h : n ∈ db.schemas
  · simp only [h, if_true]
    constructor
    · exact Or.inl
    · rintro (hm | rfl)
      · exact hm
      · exact h
  · simp [h]

theorem db_create_schema_of_mem {n : String} {db : DBState}
    (h : n ∈ db.schemas) : db_create_schema n db = db := by
  simp [db_create_schema, h]

/-! ### Query evaluation lemmas -/

theorem evalQuery_cases_date (db : DBState) :
    evalQuery db "select distinct [date] from fact.daily_cases" =
      (readTable db "fact" "daily_cases").map (fun t => selectDistinct t "date") := rfl

theorem evalQuery_cases_country (db : DBState) :
    evalQuery db "select distinct [country] from fact.daily_cases" =
      (readTable db "fact" "daily_cases").map (fun t => selectDistinct t "country") := rfl

theorem evalQuery_dim_date (db : DBState) :
    evalQuery db "select distinct [date] from dim.calendar" =
      (readTable db "dim" "calendar").map (fun t => selectDistinct t "date") := rfl

theorem evalQuery_dim_country (db : DBState) :
    evalQuery db "select distinct [country] from dim.country" =
      (readTable db "dim" "country").map (fun t => selectDistinct t "country") := rfl

theorem db_run_query_true (db : DBState) (q : String) :
    db_run_query db q true = ([q], evalQuery db q) := rfl

/-! ### Task-level elimination lemmas: what a successful task run implies -/

theorem pull_cases_ok_elim {fetch : Except String DataFrame} {db db' : DBState}
    (h : pull_cases fetch db = Except.ok db') :
    ∃ c0, fetch = Except.ok c0 ∧
      db' = write_data_to_db (c0.rename "location" "country") "daily_cases" "fact"
              (db_create_schema "fact" db) := by
  cases fetch with
  | error e => exact absurd h (by simp [pull_cases, except_bind_error])
  | ok c0 =>
      refine ⟨c0, rfl, ?_⟩
      have := h
      simp only [pull_cases, except_bind_ok, Except.ok.injEq] at this
      exact this.symm

theorem generate_calendar_ok_elim {db db' : DBState}
    (h : generate_calendar db = Except.ok db') :
    ∃ c calF, readTable db "fact" "daily_cases" = some c ∧
      addDateParts (selectDistinct c "date") = Except.ok calF ∧
      db' = write_data_to_db calF "calendar" "dim" (db_create_schema "dim" db) := by
  have h' := h
  simp only [generate_calendar, db_run_query_true, evalQuery_cases_date] at h'
  cases hc : readTable db "fact" "daily_cases" with
  | none => rw [hc] at h'; simp [queryResult, except_bind_error] at h'
  | some c =>
      rw [hc] at h'
      simp only [Option.map_some', queryResult, except_bind_ok] at h'
      cases hcal : addDateParts (selectDistinct c "date") with
      | error e => rw [hcal] at h'; simp [except_bind_error] at h'
      | ok calF =>
          rw [hcal] at h'
          simp only [except_bind_ok, Except.ok.injEq] at h'
          exact ⟨c, calF, rfl, hcal, h'.symm⟩

theorem generate_countries_ok_elim {db db' : DBState}
    (h : generate_countries db = Except.ok db') :
    ∃ c, readTable db "fact" "daily_cases" = some c ∧
      db' = write_data_to_db (selectDistinct c "country") "country" "dim"
              (db_create_schema "dim" db) := by
  have h' := h
  simp only [generate_countries, db_run_query_true, evalQuery_cases_country] at h'
  cases hc : readTable db "fact" "daily_cases" with
  | none => rw [hc] at h'; simp [queryResult, except_bind_error] at h'
  | some c =>
      rw [hc] at h'
      simp only [Option.map_some', queryResult, except_bind_ok, Except.ok.injEq] at h'
      exact ⟨c, rfl, h'.symm⟩

theorem pull_deaths_ok_elim {fetch : Except String DataFrame} {db db' : DBState}
    (h : pull_deaths fetch db = Except.ok db') :
    ∃ d0 dfd cal ctry m1 m2, fetch = Except.ok d0 ∧
      d0.drop ["continent"] true = Except.ok dfd ∧
      readTable db "dim" "calendar" = some cal ∧
      readTable db "dim" "country" = some ctry ∧
      (dfd.rename "location" "country").merge (selectDistinct cal "date") = Except.ok m1 ∧
      m1.merge (selectDistinct ctry "country") = Except.ok m2 ∧
      db' = write_data_to_db m2 "daily_deaths" "fact" db := by
  cases fetch with
  | error e => exact absurd h (by simp [pull_deaths, except_bind_error])
  | ok d0 =>
      have h' := h
      simp only [pull_deaths, except_bind_ok, DataFrame.drop_ignore, db_run_query_true,
        evalQuery_dim_date, evalQuery_dim_country] at h'
      cases hcal : readTable db "dim" "calendar" with
      | none => rw [hcal] at h'; simp [queryResult, except_bind_error] at h'
      | some cal =>
          rw [hcal] at h'
          simp only [Option.map_some', queryResult, except_bind_ok] at h'
          cases hctry : readTable db "dim" "country" with
          | none => rw [hctry] at h'; simp [except_bind_error] at h'
          | some ctry =>
              rw [hctry] at h'
              simp only [Option.map_some', queryResult, except_bind_ok] at h'
              cases hm1 : (DataFrame.rename
                  { cols := d0.cols.filter (fun c => decide (c ∉ ["continent"]))
                    rows := d0.rows.map (fun r => r.filter (fun p => decide (p.1 ∉ ["continent"]))) }
                  "location" "country").merge (selectDistinct cal "date") with
              | error e => rw [hm1] at h'; simp [except_bind_error] at h'
              | ok m1 =>
                  rw [hm1] at h'
                  simp only [except_bind_ok] at h'
                  cases hm2 : m1.merge (selectDistinct ctry "country") with
                  | error e => rw [hm2] at h'; simp [except_bind_error] at h'
                  | ok m2 =>
                      rw [hm2] at h'
                      simp only [except_bind_ok, Except.ok.injEq] at h'
                      exact ⟨d0, _, cal, ctry, m1, m2, rfl, DataFrame.drop_ignore d0 _,
                        rfl, rfl, hm1, hm2, h'.symm⟩

theorem pull_vaccinations_ok_elim {fetch : Except String DataFrame} {db db' : DBState}
    (h : pull_vaccinations fetch db = Except.ok db') :
    ∃ v0 cal ctry m1 m2, fetch = Except.ok v0 ∧
      readTable db "dim" "calendar" = some cal ∧
      readTable db "dim" "country" = some ctry ∧
      (v0.rename "location" "country").merge (selectDistinct cal "date") = Except.ok m1 ∧
      m1.merge (selectDistinct ctry "country") = Except.ok m2 ∧
      db' = write_data_to_db m2 "daily_vaccinations" "fact" db := by
  cases fetch with
  | error e => exact absurd h (by simp [pull_vaccinations, except_bind_error])
  | ok v0 =>
      have h' := h
      simp only [pull_vaccinations, except_bind_ok, db_run_query_true,
        evalQuery_dim_date, evalQuery_dim_country] at h'
      cases hcal : readTable db "dim" "calendar" with
      | none => rw [hcal] at h'; simp [queryResult, except_bind_error] at h'
      | some cal =>
          rw [hcal] at h'
          simp only [Option.map_some', queryResult, except_bind_ok] at h'
          cases hctry : readTable db "dim" "country" with
          | none => rw [hctry] at h'; simp [except_bind_error] at h'
          | some ctry =>
              rw [hctry] at h'
              simp only [Option.map_some', queryResult, except_bind_ok] at h'
              cases hm1 : (v0.rename "location" "country").merge (selectDistinct cal "date") with
              | error e => rw [hm1] at h'; simp [except_bind_error] at h'
              | ok m1 =>
                  rw [hm1] at h'
                  simp only [except_bind_ok] at h'
                  cases hm2 : m1.merge (selectDistinct ctry "country") with
                  | error e => rw [hm2] at h'; simp [except_bind_error] at h'
                  | ok m2 =>
                      rw [hm2] at h'
                      simp only [except_bind_ok, Except.ok.injEq] at h'
                      exact ⟨v0, cal, ctry, m1, m2, rfl, rfl, rfl, hm1, hm2, h'.symm⟩

theorem pull_hospital_admissions_ok_elim {fetch : Except String DataFrame} {db db' : DBState}
    (h : pull_hospital_admissions fetch db = Except.ok db') :
    ∃ v0 cal ctry m1 m2, fetch = Except.ok v0 ∧
      readTable db "dim" "calendar" = some cal ∧
      readTable db "dim" "country" = some ctry ∧
      (v0.rename "location" "country").merge (selectDistinct cal "date") = Except.ok m1 ∧
      m1.merge (selectDistinct ctry "country") = Except.ok m2 ∧
      db' = write_data_to_db m2 "daily_hospital_admissions" "fact" db := by
  cases fetch with
  | error e => exact absurd h (by simp [pull_hospital_admissions, except_bind_error])
  | ok v0 =>
      have h' := h
      simp only [pull_hospital_admissions, except_bind_ok, db_run_query_true,
        evalQuery_dim_date, evalQuery_dim_country] at h'
      cases hcal : readTable db "dim" "calendar" with
      | none => rw [hcal] at h'; simp [queryResult, except_bind_error] at h'
      | some cal =>
          rw [hcal] at h'
          simp only [Option.map_some', queryResult, except_bind_ok] at h'
          cases hctry : readTable db "dim" "country" with
          | none => rw [hctry] at h'; simp [except_bind_error] at h'
          | some ctry =>
              rw [hctry] at h'
              simp only [Option.map_some', queryResult, except_bind_ok] at h'
              cases hm1 : (v0.rename "location" "country").merge (selectDistinct cal "date") with
              | error e => rw [hm1] at h'; simp [except_bind_error] at h'
              | ok m1 =>
                  rw [hm1] at h'
                  simp only [except_bind_ok] at h'
                  cases hm2 : m1.merge (selectDistinct ctry "country") with
                  | error e => rw [hm2] at h'; simp [except_bind_error] at h'
                  | ok m2 =>
                      rw [hm2] at h'
                      simp only [except_bind_ok, Except.ok.injEq] at h'
                      exact ⟨v0, cal, ctry, m1, m2, rfl, rfl, rfl, hm1, hm2, h'.symm⟩

theorem pull_excess_mortality_ok_elim {fetch : Except String DataFrame} {db db' : DBState}
    (h : pull_excess_mortality fetch db = Except.ok db') :
    ∃ v0 cal ctry m1 m2, fetch = Except.ok v0 ∧
      readTable db "dim" "calendar" = some cal ∧
      readTable db "dim" "country" = some ctry ∧
      (v0.rename "location" "country").merge (selectDistinct cal "date") = Except.ok m1 ∧
      m1.merge (selectDistinct ctry "country") = Except.ok m2 ∧
      db' = write_data_to_db m2 "daily_excess_mortality" "fact" db := by
  cases fetch with
  | error e => exact absurd h (by simp [pull_excess_mortality, except_bind_error])
  | ok v0 =>
      have h' := h
      simp only [pull_excess_mortality, except_bind_ok, db_run_query_true,
        evalQuery_dim_date, evalQuery_dim_country] at h'
      cases hcal : readTable db "dim" "calendar" with
      | none => rw [hcal] at h'; simp [queryResult, except_bind_error] at h'
      | some cal =>
          rw [hcal] at h'
          simp only [Option.map_some', queryResult, except_bind_ok] at h'
          cases hctry : readTable db "dim" "country" with
          | none => rw [hctry] at h'; simp [except_bind_error] at h'
          | some ctry =>
              rw [hctry] at h'
              simp only [Option.map_some', queryResult, except_bind_ok] at h'
              cases hm1 : (v0.rename "location" "country").merge (selectDistinct cal "date") with
              | error e => rw [hm1] at h'; simp [except_bind_error] at h'
              | ok m1 =>
                  rw [hm1] at h'
                  simp only [except_bind_ok] at h'
                  cases hm2 : m1.merge (selectDistinct ctry "country") with
                  | error e => rw [hm2] at h'; simp [except_bind_error] at h'
                  | ok m2 =>
                      rw [hm2] at h'
                      simp only [except_bind_ok, Except.ok.injEq] at h'
                      exact ⟨v0, cal, ctry, m1, m2, rfl, rfl, rfl, hm1, hm2, h'.symm⟩

/-! ### Task-level introduction lemmas: computing a task run forwards -/

theorem pull_cases_intro (c0 : DataFrame) (db : DBState) :
    pull_cases (Except.ok c0) db =
      Except.ok (write_data_to_db (c0.rename "location" "country") "daily_cases" "fact"
        (db_create_schema "fact" db)) := rfl

theorem generate_calendar_intro {db : DBState} {c calF : DataFrame}
    (hc : readTable db "fact" "daily_cases" = some c)
    (hcal : addDateParts (selectDistinct c "date") = Except.ok calF) :
    generate_calendar db =
      Except.ok (write_data_to_db calF "calendar" "dim" (db_create_schema "dim" db)) := by
  simp only [generate_calendar, db_run_query_true, evalQuery_cases_date, hc,
    Option.map_some', queryResult, except_bind_ok, hcal]

theorem generate_countries_intro {db : DBState} {c : DataFrame}
    (hc : readTable db "fact" "daily_cases" = some c) :
    generate_countries db =
      Except.ok (write_data_to_db (selectDistinct c "country") "country" "dim"
        (db_create_schema "dim" db)) := by
  simp only [generate_countries, db_run_query_true, evalQuery_cases_country, hc,
    Option.map_some', queryResult, except_bind_ok]

theorem pull_deaths_intro {db : DBState} {d0 dfd cal ctry m1 m2 : DataFrame}
    (hdrop : d0.drop ["continent"] true = Except.ok dfd)
    (hcal : readTable db "dim" "calendar" = some cal)
    (hctry : readTable db "dim" "country" = some ctry)
    (hm1 : (dfd.rename "location" "country").merge (selectDistinct cal "date") = Except.ok m1)
    (hm2 : m1.merge (selectDistinct ctry "country") = Except.ok m2) :
    pull_deaths (Except.ok d0) db =
      Except.ok (write_data_to_db m2 "daily_deaths" "fact" db) := by
  simp only [pull_deaths, except_bind_ok, hdrop, db_run_query_true, evalQuery_dim_date,
    evalQuery_dim_country, hcal, hctry, Option.map_some', queryResult, except_bind_ok,
    hm1, hm2]

theorem pull_vaccinations_intro {db : DBState} {v0 cal ctry m1 m2 : DataFrame}
    (hcal : readTable db "dim" "calendar" = some cal)
    (hctry : readTable db "dim" "country" = some ctry)
    (hm1 : (v0.rename "location" "country").merge (selectDistinct cal "date") = Except.ok m1)
    (hm2 : m1.merge (selectDistinct ctry "country") = Except.ok m2) :
    pull_vaccinations (Except.ok v0) db =
      Except.ok (write_data_to_db m2 "daily_vaccinations" "fact" db) := by
  simp only [pull_vaccinations, except_bind_ok, db_run_query_true, evalQuery_dim_date,
    evalQuery_dim_country, hcal, hctry, Option.map_some', queryResult, except_bind_ok,
    hm1, hm2]

theorem pull_hospital_admissions_intro {db : DBState} {v0 cal ctry m1 m2 : DataFrame}
    (hcal : readTable db "dim" "calendar" = some cal)
    (hctry : readTable db "dim" "country" = some ctry)
    (hm1 : (v0.rename "location" "country").merge (selectDistinct cal "date") = Except.ok m1)
    (hm2 : m1.merge (selectDistinct ctry "country") = Except.ok m2) :
    pull_hospital_admissions (Except.ok v0) db =
      Except.ok (write_data_to_db m2 "daily_hospital_admissions" "fact" db) := by
  simp only [pull_hospital_admissions, except_bind_ok, db_run_query_true, evalQuery_dim_date,
    evalQuery_dim_country, hcal, hctry, Option.map_some', queryResult, except_bind_ok,
    hm1, hm2]

theorem pull_excess_mortality_intro {db : DBState} {v0 cal ctry m1 m2 : DataFrame}
    (hcal : readTable db "dim" "calendar" = some cal)
    (hctry : readTable db "dim" "country" = some ctry)
    (hm1 : (v0.rename "location" "country").merge (selectDistinct cal "date") = Except.ok m1)
    (hm2 : m1.merge (selectDistinct ctry "country") = Except.ok m2) :
    pull_excess_mortality (Except.ok v0) db =
      Except.ok (write_data_to_db m2 "daily_excess_mortality" "fact" db) := by
  simp only [pull_excess_mortality, except_bind_ok, db_run_query_true, evalQuery_dim_date,
    evalQuery_dim_country, hcal, hctry, Option.map_some', queryResult, except_bind_ok,
    hm1, hm2]

/-- Characterization of a successful full pipeline run: each remote fetch
succeeded, every intermediate frame is determined by the fetched data alone,
and the final database state is the initial one with the two schemas created
and the seven tables replaced. -/
theorem runPipeline_ok_elim {src : RemoteSource} {db db' : DBState}
    (h : runPipeline src db = Except.ok db') :
    ∃ c0 d0 v0 h0 e0 dfd calF m1d m2d m1v m2v m1h m2h m1e m2e,
      src.casesData = Except.ok c0 ∧
      src.deathsData = Except.ok d0 ∧
      src.vaccinationsData = Except.ok v0 ∧
      src.hospitalData = Except.ok h0 ∧
      src.excessData = Except.ok e0 ∧
      d0.drop ["continent"] true = Except.ok dfd ∧
      addDateParts (selectDistinct (c0.rename "location" "country") "date") = Except.ok calF ∧
      (dfd.rename "location" "country").merge (selectDistinct calF "date") = Except.ok m1d ∧
      m1d.merge (selectDistinct
        (selectDistinct (c0.rename "location" "country") "country") "country") = Except.ok m2d ∧
      (v0.rename "location" "country").merge (selectDistinct calF "date") = Except.ok m1v ∧
      m1v.merge (selectDistinct
        (selectDistinct (c0.rename "location" "country") "country") "country") = Except.ok m2v ∧
      (h0.rename "location" "country").merge (selectDistinct calF "date") = Except.ok m1h ∧
      m1h.merge (selectDistinct
        (selectDistinct (c0.rename "location" "country") "country") "country") = Except.ok m2h ∧
      (e0.rename "location" "country").merge (selectDistinct calF "date") = Except.ok m1e ∧
      m1e.merge (selectDistinct
        (selectDistinct (c0.rename "location" "country") "country") "country") = Except.ok m2e ∧
      db' = write_data_to_db m2e "daily_excess_mortality" "fact"
              (write_data_to_db m2h "daily_hospital_admissions" "fact"
                (write_data_to_db m2v "daily_vaccinations" "fact"
                  (write_data_to_db m2d "daily_deaths" "fact"
                    (write_data_to_db
                      (selectDistinct (c0.rename "location" "country") "country")
                      "country" "dim"
                      (db_create_schema "dim"
                        (write_data_to_db calF "calendar" "dim"
                          (db_create_schema "dim"
                            (write_data_to_db (c0.rename "location" "country")
                              "daily_cases" "fact"
                              (db_create_schema "fact" db))))))))) := by
  unfold runPipeline at h
  cases h1 : pull_cases src.casesData db with
  | error e => rw [h1] at h; simp [except_bind_error] at h
  | ok db1 =>
  rw [h1, except_bind_ok] at h
  cases h2 : generate_calendar db1 with
  | error e => rw [h2] at h; simp [except_bind_error] at h
  | ok db2 =>
  rw [h2, except_bind_ok] at h
  cases h3 : generate_countries db2 with
  | error e => rw [h3] at h; simp [except_bind_error] at h
  | ok db3 =>
  rw [h3, except_bind_ok] at h
  cases h4 : pull_deaths src.deathsData db3 with
  | error e => rw [h4] at h; simp [except_bind_error] at h
  | ok db4 =>
  rw [h4, except_bind_ok] at h
  cases h5 : pull_vaccinations src.vaccinationsData db4 with
  | error e => rw [h5] at h; simp [except_bind_error] at h
  | ok db5 =>
  rw [h5, except_bind_ok] at h
  cases h6 : pull_hospital_admissions src.hospitalData db5 with
  | error e => rw [h6] at h; simp [except_bind_error] at h
  | ok db6 =>
  rw [h6, except_bind_ok] at h
  cases h7 : pull_excess_mortality src.excessData db6 with
  | error e => rw [h7] at h; simp [except_bind_error] at h
  | ok db7 =>
  rw [h7, except_bind_ok] at h
  simp only [except_bind_ok, Except.ok.injEq] at h
  subst h
  obtain ⟨c0, hf1, hdb1⟩ := pull_cases_ok_elim h1
  subst hdb1
  obtain ⟨c, calF, hc, hadd, hdb2⟩ := generate_calendar_ok_elim h2
  rw [show readTable (write_data_to_db (c0.rename "location" "country") "daily_cases" "fact"
      (db_create_schema "fact" db)) "fact" "daily_cases" =
      some (c0.rename "location" "country") by simp [readTable_write]] at hc
  injection hc with hc
  subst hc
  subst hdb2
  obtain ⟨c', hc', hdb3⟩ := generate_countries_ok_elim h3
  rw [show readTable (write_data_to_db calF "calendar" "dim" (db_create_schema "dim"
      (write_data_to_db (c0.rename "location" "country") "daily_cases" "fact"
        (db_create_schema "fact" db)))) "fact" "daily_cases" =
      some (c0.rename "location" "country") by
        simp [readTable_write, readTable_db_create_schema]] at hc'
  injection hc' with hc'
  subst hc'
  subst hdb3
  obtain ⟨d0, dfd, cal, ctry, m1d, m2d, hf2, hdrop, hcal, hctry, hm1d, hm2d, hdb4⟩ :=
    pull_deaths_ok_elim h4
  rw [show readTable (write_data_to_db
      (selectDistinct (c0.rename "location" "country") "country") "country" "dim"
      (db_create_schema "dim" (write_data_to_db calF "calendar" "dim" (db_create_schema "dim"
        (write_data_to_db (c0.rename "location" "country") "daily_cases" "fact"
          (db_create_schema "fact" db)))))) "dim" "calendar" = some calF by
        simp [readTable_write, readTable_db_create_schema]] at hcal
  injection hcal with hcal
  subst hcal
  rw [show readTable (write_data_to_db
      (selectDistinct (c0.rename "location" "country") "country") "country" "dim"
      (db_create_schema "dim" (write_data_to_db calF "calendar" "dim" (db_create_schema "dim"
        (write_data_to_db (c0.rename "location" "country") "daily_cases" "fact"
          (db_create_schema "fact" db)))))) "dim" "country" =
      some (selectDistinct (c0.rename "location" "country") "country") by
        simp [readTable_write, readTable_db_create_schema]] at hctry
  injection hctry with hctry
  subst hctry
  subst hdb4
  obtain ⟨v0, cal, ctry, m1v, m2v, hf3, hcalv, hctryv, hm1v, hm2v, hdb5⟩ :=
    pull_vaccinations_ok_elim h5
  rw [show readTable (write_data_to_db m2d "daily_deaths" "fact" (write_data_to_db
      (selectDistinct (c0.rename "location" "country") "country") "country" "dim"
      (db_create_schema "dim" (write_data_to_db calF "calendar" "dim" (db_create_schema "dim"
        (write_data_to_db (c0.rename "location" "country") "daily_cases" "fact"
          (db_create_schema "fact" db))))))) "dim" "calendar" = some calF by
        simp [readTable_write, readTable_db_create_schema]] at hcalv
  injection hcalv with hcalv
  subst hcalv
  rw [show readTable (write_data_to_db m2d "daily_deaths" "fact" (write_data_to_db
      (selectDistinct (c0.rename "location" "country") "country") "country" "dim"
      (db_create_schema "dim" (write_data_to_db calF "calendar" "dim" (db_create_schema "dim"
        (write_data_to_db (c0.rename "location" "country") "daily_cases" "fact"
          (db_create_schema "fact" db))))))) "dim" "country" =
      some (selectDistinct (c0.rename "location" "country") "country") by
        simp [readTable_write, readTable_db_create_schema]] at hctryv
  injection hctryv with hctryv
  subst hctryv
  subst hdb5
  obtain ⟨h0, cal, ctry, m1h, m2h, hf4, hcalh, hctryh, hm1h, hm2h, hdb6⟩ :=
    pull_hospital_admissions_ok_elim h6
  rw [show readTable (write_data_to_db m2v "daily_vaccinations" "fact"
      (write_data_to_db m2d "daily_deaths" "fact" (write_data_to_db
      (selectDistinct (c0.rename "location" "country") "country") "country" "dim"
      (db_create_schema "dim" (write_data_to_db calF "calendar" "dim" (db_create_schema "dim"
        (write_data_to_db (c0.rename "location" "country") "daily_cases" "fact"
          (db_create_schema "fact" db)))))))) "dim" "calendar" = some calF by
        simp [readTable_write, readTable_db_create_schema]] at hcalh
  injection hcalh with hcalh
  subst hcalh
  rw [show readTable (write_data_to_db m2v "daily_vaccinations" "fact"
      (write_data_to_db m2d "daily_deaths" "fact" (write_data_to_db
      (selectDistinct (c0.rename "location" "country") "country") "country" "dim"
      (db_create_schema "dim" (write_data_to_db calF "calendar" "dim" (db_create_schema "dim"
        (write_data_to_db (c0.rename "location" "country") "daily_cases" "fact"
          (db_create_schema "fact" db)))))))) "dim" "country" =
      some (selectDistinct (c0.rename "location" "country") "country") by
        simp [readTable_write, readTable_db_create_schema]] at hctryh
  injection hctryh with hctryh
  subst hctryh
  subst hdb6
  obtain ⟨e0, cal, ctry, m1e, m2e, hf5, hcale, hctrye, hm1e, hm2e, hdb7⟩ :=
    pull_excess_mortality_ok_elim h7
  rw [show readTable (write_data_to_db m2h "daily_hospital_admissions" "fact"
      (write_data_to_db m2v "daily_vaccinations" "fact"
      (write_data_to_db m2d "daily_deaths" "fact" (write_data_to_db
      (selectDistinct (c0.rename "location" "country") "country") "country" "dim"
      (db_create_schema "dim" (write_data_to_db calF "calendar" "dim" (db_create_schema "dim"
        (write_data_to_db (c0.rename "location" "country") "daily_cases" "fact"
          (db_create_schema "fact" db))))))))) "dim" "calendar" = some calF by
        simp [readTable_write, readTable_db_create_schema]] at hcale
  injection hcale with hcale
  subst hcale
  rw [show readTable (write_data_to_db m2h "daily_hospital_admissions" "fact"
      (write_data_to_db m2v "daily_vaccinations" "fact"
      (write_data_to_db m2d "daily_deaths" "fact" (write_data_to_db
      (selectDistinct (c0.rename "location" "country") "country") "country" "dim"
      (db_create_schema "dim" (write_data_to_db calF "calendar" "dim" (db_create_schema "dim"
        (write_data_to_db (c0.rename "location" "country") "daily_cases" "fact"
          (db_create_schema "fact" db))))))))) "dim" "country" =
      some (selectDistinct (c0.rename "location" "country") "country") by
        simp [readTable_write, readTable_db_create_schema]] at hctrye
  injection hctrye with hctrye
  subst hctrye
  subst hdb7
  exact ⟨c0, d0, v0, h0, e0, dfd, calF, m1d, m2d, m1v, m2v, m1h, m2h, m1e, m2e,
    hf1, hf2, hf3, hf4, hf5, hdrop, hadd, hm1d, hm2d, hm1v, hm2v, hm1h, hm2h,
    hm1e, hm2e, rfl⟩

/-! ### Column lemmas -/

theorem rename_mem_new {df : DataFrame} {old new : String} (h : old ∈ df.cols) :
    new ∈ (df.rename old new).cols := by
  simp only [DataFrame.rename, List.mem_map]
  exact ⟨old, h, by simp⟩

theorem rename_not_mem_old {df : DataFrame} {old new : String} (h : old ≠ new) :
    old ∉ (df.rename old new).cols := by
  simp only [DataFrame.rename, List.mem_map]
  rintro ⟨c, _, hc⟩
  by_cases hco : c = old
  · rw [if_pos hco] at hc; exact h hc.symm
  · rw [if_neg hco] at hc; exact hco hc

theorem rename_not_mem_other {df : DataFrame} {old new x : String}
    (hx : x ∉ df.cols) (hnew : x ≠ new) : x ∉ (df.rename old new).cols := by
  simp only [DataFrame.rename, List.mem_map]
  rintro ⟨c, hcmem, hc⟩
  by_cases hco : c = old
  · rw [if_pos hco] at hc; exact hnew hc.symm
  · rw [if_neg hco] at hc; exact hx (hc ▸ hcmem)

theorem merge_cols_mem {df1 df2 m : DataFrame} (h : df1.merge df2 = Except.ok m)
    {x : String} : x ∈ m.cols ↔ x ∈ df1.cols ∨ x ∈ df2.cols := by
  rw [(merge_ok_elim h).2.1]
  simp only [List.mem_append, List.mem_filter, decide_eq_true_eq]
  constructor
  · rintro (h1 | ⟨h2, _⟩)
    · exact Or.inl h1
    · exact Or.inr h2
  · rintro (h1 | h2)
    · exact Or.inl h1
    · by_cases hx : x ∈ df1.cols
      · exact Or.inl hx
      · exact Or.inr ⟨h2, hx⟩

theorem mergeKeys_singleton_right {df1 df2 m : DataFrame} {c : String}
    (hcols : df2.cols = [c]) (h : df1.merge df2 = Except.ok m) :
    c ∈ mergeKeys df1 df2 ∧ c ∈ df1.cols := by
  obtain ⟨k, hk⟩ := List.exists_mem_of_ne_nil _ (merge_ok_elim h).1
  have hk2 := mergeKeys_mem_right hk
  rw [hcols, List.mem_singleton] at hk2
  subst hk2
  exact ⟨hk, mergeKeys_mem_left hk⟩

/-- Every row of the double inner join has a `date` value drawn from the
calendar table's dates and a `country` value drawn from the country table's
countries. -/
theorem join_rows_ref {dfT cal ctry m1 m2 : DataFrame}
    (hm1 : dfT.merge (selectDistinct cal "date") = Except.ok m1)
    (hm2 : m1.merge (selectDistinct ctry "country") = Except.ok m2)
    {r : Row} (hr : r ∈ m2.rows) :
    (∃ dv, r.get "date" = some dv ∧
      dv ∈ cal.rows.map (fun rr => rr.getD "date")) ∧
    (∃ cv, r.get "country" = some cv ∧
      cv ∈ ctry.rows.map (fun rr => rr.getD "country")) := by
  obtain ⟨r12, hr12, r3, hr3, hmatch2, heq2⟩ := merge_rows_mem hm2 hr
  obtain ⟨cv, hcv, rfl⟩ := selectDistinct_rows_mem.mp hr3
  obtain ⟨r1, hr1, r2, hr2, hmatch1, heq1⟩ := merge_rows_mem hm1 hr12
  obtain ⟨dv, hdv, rfl⟩ := selectDistinct_rows_mem.mp hr2
  have hkd := (mergeKeys_singleton_right (selectDistinct_cols cal "date") hm1).1
  have hkc := (mergeKeys_singleton_right (selectDistinct_cols ctry "country") hm2).1
  have hg1 : r1.get "date" = some dv := by
    rw [hmatch1 "date" hkd, Row.get_singleton]
  have hg12d : r12.get "date" = some dv := by
    rw [heq1]; exact Row.get_append_left _ hg1
  have hg12c : r12.get "country" = some cv := by
    rw [hmatch2 "country" hkc, Row.get_singleton]
  constructor
  · refine ⟨dv, ?_, List.mem_dedup.mp hdv⟩
    rw [heq2]; exact Row.get_append_left _ hg12d
  · refine ⟨cv, ?_, List.mem_dedup.mp hcv⟩
    rw [heq2]; exact Row.get_append_left _ hg12c

/-! ### Scheduler lemmas (dependency relation and traces) -/

/-- Transitive dependency between task nodes, generated by the declared
`deps=[...]` edges. -/
inductive DependsOn : TaskNode → TaskNode → Prop where
  | base {t d : TaskNode} : d ∈ taskDeps t → DependsOn t d
  | trans {t d a : TaskNode} : d ∈ taskDeps t → DependsOn d a → DependsOn t a

theorem validTrace_dep_mem {tr : List (TaskNode × Bool)} (hv : ValidTrace tr)
    {t : TaskNode} {b : Bool} (hmem : (t, b) ∈ tr) {d : TaskNode}
    (hd : d ∈ taskDeps t) : (d, true) ∈ tr := by
  obtain ⟨n, hn⟩ := List.mem_iff_get.mp hmem
  have := hv.2 n.1 n.2 d (by rw [show tr.get ⟨n.1, n.2⟩ = (t, b) from hn]; exact hd)
  exact List.take_subset _ _ this

theorem validTrace_ancestor {tr : List (TaskNode × Bool)} (hv : ValidTrace tr)
    {t a : TaskNode} (hdep : DependsOn t a) :
    ∀ {b : Bool}, (t, b) ∈ tr → (a, true) ∈ tr := by
  induction hdep with
  | base hd => exact fun hb => validTrace_dep_mem hv hb hd
  | trans hd _ ih => exact fun hb => ih (validTrace_dep_mem hv hb hd)

/-! ### Concrete demonstration data (used to instantiate theorems) -/

/-- A small cases/tests snapshot: dates 2021-01-01, 2021-01-02, 2021-01-01 and
locations A, B, A (the dimension-derivation example of the design notes). -/
def exCases : DataFrame where
  cols := ["location", "date", "cases"]
  rows := [
    [("location", Value.vStr "A"), ("date", Value.vDate 2021 1 1), ("cases", Value.vInt 5)],
    [("location", Value.vStr "B"), ("date", Value.vDate 2021 1 2), ("cases", Value.vInt 7)],
    [("location", Value.vStr "A"), ("date", Value.vDate 2021 1 1), ("cases", Value.vInt 5)]]

/-- A small deaths snapshot: one row whose date and country both occur in the
dimensions, one whose date (2021-01-03) does not, and one whose country ("C")
does not. -/
def exDeaths : DataFrame where
  cols := ["continent", "location", "date", "deaths"]
  rows := [
    [("continent", Value.vStr "X"), ("location", Value.vStr "A"),
     ("date", Value.vDate 2021 1 1), ("deaths", Value.vInt 1)],
    [("continent", Value.vStr "X"), ("location", Value.vStr "A"),
     ("date", Value.vDate 2021 1 3), ("deaths", Value.vInt 2)],
    [("continent", Value.vStr "Y"), ("location", Value.vStr "C"),
     ("date", Value.vDate 2021 1 1), ("deaths", Value.vInt 3)]]

/-- A remote-source snapshot built from the two small frames. -/
def exSrc : RemoteSource where
  casesData := Except.ok exCases
  deathsData := Except.ok exDeaths
  vaccinationsData := Except.ok exDeaths
  hospitalData := Except.ok exDeaths
  excessData := Except.ok exDeaths

/-- Final state of a first full pipeline run from an empty database. -/
def exDb1 : DBState := (runPipeline exSrc ⟨[], []⟩).toOption.getD ⟨[], []⟩

/-- Final state of a second full pipeline run on top of the first. -/
def exDb2 : DBState := (runPipeline exSrc exDb1).toOption.getD ⟨[], []⟩

/-- State after the cases ingest and the two dimension builders. -/
def exDbDims : DBState :=
  ((do
    let db ← pull_cases (Except.ok exCases) ⟨[], []⟩
    let db ← generate_calendar db
    generate_countries db : Except String DBState)).toOption.getD ⟨[], []⟩

/-- The deaths frame after the continent drop. -/
def exDeathsDropped : DataFrame := (exDeaths.drop ["continent"] true).toOption.getD ⟨[], []⟩

/-- State after additionally running the deaths ingest. -/
def exDbDeaths : DBState :=
  (pull_deaths (Except.ok exDeaths) exDbDims).toOption.getD ⟨[], []⟩

/-- The calendar dimension stored after the dimension builders. -/
def exCal : DataFrame := (readTable exDbDims "dim" "calendar").getD ⟨[], []⟩

/-- The country dimension stored after the dimension builders. -/
def exCtry : DataFrame := (readTable exDbDims "dim" "country").getD ⟨[], []⟩

/-! ## The claims -/

/-- C10: for every query string, calling `db_run_query` with
`return_table = False` sends no SQL to the database at all and returns `None`:
the query is silently skipped rather than executed for side effects. -/
theorem db_run_query_false_skips (db : DBState) (q : String) :
    db_run_query db q false = ([], none) := rfl

/-- C9: `db_create_schema` creates the named schema only when it does not
already exist and is idempotent: after one call the schema exists, a call on
an existing schema changes nothing (so a second call with the same name
changes nothing), stored tables are untouched, and schemas other than the
named one are unaffected. -/
theorem db_create_schema_spec (db : DBState) (n : String) :
    n ∈ (db_create_schema n db).schemas ∧
    (n ∈ db.schemas → db_create_schema n db = db) ∧
    db_create_schema n (db_create_schema n db) = db_create_schema n db ∧
    (db_create_schema n db).tables = db.tables ∧
    (∀ s, s ≠ n → (s ∈ (db_create_schema n db).schemas ↔ s ∈ db.schemas)) := by
  have hmem : n ∈ (db_create_schema n db).schemas :=
    (mem_schemas_db_create_schema n db n).mpr (Or.inr rfl)
  refine ⟨hmem, db_create_schema_of_mem, db_create_schema_of_mem hmem,
    tables_db_create_schema n db, fun s hs => ?_⟩
  rw [mem_schemas_db_create_schema]
  exact or_iff_left hs

/-- Witness for C9 at a concrete state: creating an existing schema is the
identity. -/
theorem db_create_schema_spec_witness :
    db_create_schema "fact" ⟨["fact"], []⟩ = ⟨["fact"], []⟩ :=
  (db_create_schema_spec ⟨["fact"], []⟩ "fact").2.1 (by decide)

/-- C8: the continent-drop step of the deaths ingest always succeeds: it
removes the `continent` column (from the header and every row) and keeps
every other column unchanged; on a frame without a `continent` column (whose
rows carry only header columns) it is the identity. -/
theorem drop_continent_spec (df : DataFrame) :
    (∃ out, df.drop ["continent"] true = Except.ok out ∧
      out.cols = df.cols.filter (fun c => decide (c ≠ "continent")) ∧
      out.rows = df.rows.map (fun r => r.filter (fun p => decide (p.1 ≠ "continent")))) ∧
    ("continent" ∉ df.cols → (∀ r ∈ df.rows, ∀ p ∈ r, p.1 ∈ df.cols) →
      df.drop ["continent"] true = Except.ok df) := by
  have hcols : ∀ l : List String,
      l.filter (fun c => decide (c ∉ ["continent"])) =
      l.filter (fun c => decide (c ≠ "continent")) := by
    intro l
    refine List.filter_congr fun a _ => ?_
    simp [List.mem_singleton]
  have hrows : ∀ r : Row,
      r.filter (fun p => decide (p.1 ∉ ["continent"])) =
      r.filter (fun p => decide (p.1 ≠ "continent")) := by
    intro r
    refine List.filter_congr fun a _ => ?_
    simp [List.mem_singleton]
  constructor
  · refine ⟨_, DataFrame.drop_ignore df ["continent"], ?_, ?_⟩
    · exact hcols df.cols
    · simp only []
      exact congrArg df.rows.map (funext hrows)
  · intro habs hwf
    rw [DataFrame.drop_ignore]
    have h1 : df.cols.filter (fun c => decide (c ∉ ["continent"])) = df.cols := by
      rw [List.filter_eq_self]
      intro a ha
      simp only [decide_eq_true_eq, List.mem_singleton]
      exact fun he => habs (he ▸ ha)
    have h2 : df.rows.map (fun r => r.filter (fun p => decide (p.1 ∉ ["continent"]))) =
        df.rows := by
      rw [show df.rows.map (fun r => r.filter (fun p => decide (p.1 ∉ ["continent"]))) =
          df.rows.map id from List.map_congr_left ?_, List.map_id]
      intro r hr
      rw [id_eq, List.filter_eq_self]
      intro p hp
      simp only [decide_eq_true_eq, List.mem_singleton]
      exact fun he => habs (he ▸ hwf r hr p hp)
    rw [h1, h2]

/-- Witness for C8 at a concrete continent-free frame: the drop is the
identity. -/
theorem drop_continent_spec_witness :
    DataFrame.drop ⟨["location"], [[("location", Value.vStr "A")]]⟩ ["continent"] true =
      Except.ok ⟨["location"], [[("location", Value.vStr "A")]]⟩ :=
  (drop_continent_spec ⟨["location"], [[("location", Value.vStr "A")]]⟩).2
    (by decide) (by decide)

/-- C7: a failed remote fetch aborts the owning ingest task with the very
error raised, uncaught and unretried, and the task produces no new database
state (no write happens before a successful fetch); likewise a failure of
the dimension read, a step before the final write, prevents any successful
completion. -/
theorem fetch_error_aborts (e : String) (db : DBState) :
    pull_cases (Except.error e) db = Except.error e ∧
    pull_deaths (Except.error e) db = Except.error e ∧
    pull_vaccinations (Except.error e) db = Except.error e ∧
    pull_hospital_admissions (Except.error e) db = Except.error e ∧
    pull_excess_mortality (Except.error e) db = Except.error e ∧
    (∀ df, readTable db "dim" "calendar" = none →
      ∀ db', pull_deaths (Except.ok df) db ≠ Except.ok db') := by
  refine ⟨rfl, rfl, rfl, rfl, rfl, fun df hnone db' hok => ?_⟩
  obtain ⟨_, _, cal, _, _, _, _, _, hcal, _⟩ := pull_deaths_ok_elim hok
  rw [hnone] at hcal
  exact Option.noConfusion hcal

/-- Witness for C7: with an empty database (no dimension tables), the deaths
ingest cannot complete successfully. -/
theorem fetch_error_aborts_witness :
    pull_deaths (Except.ok exDeaths) ⟨[], []⟩ ≠ Except.ok ⟨[], []⟩ :=
  (fetch_error_aborts "HTTPError" ⟨[], []⟩).2.2.2.2.2 exDeaths rfl ⟨[], []⟩

/-- C3: in every valid execution trace, the two dimension builders start only
after `pull_cases` completed successfully, each of the four downstream fact
ingests starts only after both dimension builders completed successfully, and
a task one of whose (transitive) ancestors failed never starts. -/
theorem dependency_ordering {tr : List (TaskNode × Bool)} (hv : ValidTrace tr) :
    (∀ i, ∀ hi : i < tr.length,
        ((tr.get ⟨i, hi⟩).1 = TaskNode.generateCalendar ∨
         (tr.get ⟨i, hi⟩).1 = TaskNode.generateCountries) →
        (TaskNode.pullCases, true) ∈ tr.take i) ∧
    (∀ i, ∀ hi : i < tr.length,
        ((tr.get ⟨i, hi⟩).1 = TaskNode.pullDeaths ∨
         (tr.get ⟨i, hi⟩).1 = TaskNode.pullVaccinations ∨
         (tr.get ⟨i, hi⟩).1 = TaskNode.pullHospitalAdmissions ∨
         (tr.get ⟨i, hi⟩).1 = TaskNode.pullExcessMortality) →
        (TaskNode.generateCalendar, true) ∈ tr.take i ∧
        (TaskNode.generateCountries, true) ∈ tr.take i) ∧
    (∀ t a, ∀ b : Bool, DependsOn t a → (a, false) ∈ tr → (t, b) ∉ tr) := by
  refine ⟨?_, ?_, ?_⟩
  · intro i hi hcase
    refine hv.2 i hi TaskNode.pullCases ?_
    rcases hcase with h | h <;> rw [h] <;> simp [taskDeps]
  · intro i hi hcase
    constructor
    · refine hv.2 i hi TaskNode.generateCalendar ?_
      rcases hcase with h | h | h | h <;> rw [h] <;> simp [taskDeps]
    · refine hv.2 i hi TaskNode.generateCountries ?_
      rcases hcase with h | h | h | h <;> rw [h] <;> simp [taskDeps]
  · intro t a b hdep hfalse hmem
    have htrue := validTrace_ancestor hv hdep hmem
    have heq := List.inj_on_of_nodup_map hv.1 htrue hfalse rfl
    simp at heq

/-- A valid four-task trace used to instantiate C3. -/
def exTrace : List (TaskNode × Bool) :=
  [(TaskNode.pullCases, true), (TaskNode.generateCalendar, true),
   (TaskNode.generateCountries, true), (TaskNode.pullDeaths, true)]

/-- Witness for C3 on a concrete valid trace: the deaths ingest at position 3
is preceded by both successful dimension builds. -/
theorem dependency_ordering_witness :
    (TaskNode.generateCalendar, true) ∈ exTrace.take 3 ∧
    (TaskNode.generateCountries, true) ∈ exTrace.take 3 :=
  (dependency_ordering (by decide)).2.1 3 (by decide) (Or.inl rfl)

/-- On single-column date rows whose values are all datetimes, the date-part
extension decomposes each date into its year, month and day. -/
theorem datePartsRows_dates {vs : List Value}
    (h : ∀ v ∈ vs, ∃ y m d, v = Value.vDate y m d) :
    datePartsRows (vs.map (fun v => [("date", v)])) =
      Except.ok (vs.map (fun v =>
        match v with
        | Value.vDate y m d =>
            [("date", Value.vDate y m d), ("year", Value.vInt y),
             ("month", Value.vInt m), ("day", Value.vInt d)]
        | w => [("date", w)])) := by
  induction vs with
  | nil => rfl
  | cons v vs ih =>
      obtain ⟨y, m, d, rfl⟩ := h v (List.mem_cons_self v vs)
      simp only [List.map_cons, datePartsRows, Row.get_singleton]
      rw [ih (fun w hw => h w (List.mem_cons_of_mem _ hw))]
      rfl

/-- C6: the date dimension derived from a primary fact table holds exactly one
row per distinct date of the fact table, each decomposed into its year, month
and day, and the country dimension holds exactly one row per distinct
country. -/
theorem dimension_derivation (db db1 db2 : DBState) (df : DataFrame)
    (hc : readTable db "fact" "daily_cases" = some df)
    (hdates : ∀ r ∈ df.rows, ∃ y m d, r.getD "date" = Value.vDate y m d)
    (h1 : generate_calendar db = Except.ok db1)
    (h2 : generate_countries db1 = Except.ok db2) :
    ∃ cal ctry,
      readTable db2 "dim" "calendar" = some cal ∧
      readTable db2 "dim" "country" = some ctry ∧
      cal.cols = ["date", "year", "month", "day"] ∧
      cal.rows = ((df.rows.map (fun r => r.getD "date")).dedup).map
        (fun v => match v with
          | Value.vDate y m d =>
              [("date", Value.vDate y m d), ("year", Value.vInt y),
               ("month", Value.vInt m), ("day", Value.vInt d)]
          | w => [("date", w)]) ∧
      cal.rows.Nodup ∧
      ctry.cols = ["country"] ∧
      ctry.rows = ((df.rows.map (fun r => r.getD "country")).dedup).map
        (fun v => [("country", v)]) ∧
      ctry.rows.Nodup := by
  obtain ⟨c, calF, hc', hadd, hdb1⟩ := generate_calendar_ok_elim h1
  rw [hc] at hc'
  injection hc' with hc'
  subst hc'
  have hvs : ∀ v ∈ (df.rows.map (fun r => r.getD "date")).dedup,
      ∃ y m d, v = Value.vDate y m d := by
    intro v hv
    rcases List.mem_map.mp (List.mem_dedup.mp hv) with ⟨r, hr, rfl⟩
    exact hdates r hr
  have hsel : (selectDistinct df "date").rows =
      ((df.rows.map (fun r => r.getD "date")).dedup).map (fun v => [("date", v)]) := rfl
  simp only [addDateParts, hsel, datePartsRows_dates hvs, except_bind_ok,
    Except.ok.injEq] at hadd
  obtain ⟨c', hc'', hdb2⟩ := generate_countries_ok_elim h2
  rw [hdb1] at hc''
  rw [show readTable (write_data_to_db calF "calendar" "dim" (db_create_schema "dim" db))
      "fact" "daily_cases" = readTable db "fact" "daily_cases" by
        simp [readTable_write, readTable_db_create_schema]] at hc''
  rw [hc] at hc''
  injection hc'' with hc''
  subst hc''
  refine ⟨calF, selectDistinct df "country", ?_, ?_, ?_, ?_, ?_, rfl, rfl, ?_⟩
  · rw [hdb2, hdb1]
    simp [readTable_write, readTable_db_create_schema]
  · rw [hdb2]
    simp [readTable_write]
  · rw [← hadd]
    rfl
  · rw [← hadd]
  · rw [← hadd]
    simp only []
    refine List.Nodup.map ?_ (List.nodup_dedup _)
    have hhead : ∀ v : Value, (match v with
        | Value.vDate y m d =>
            [("date", Value.vDate y m d), ("year", Value.vInt y),
             ("month", Value.vInt m), ("day", Value.vInt d)]
        | w => [("date", w)] : Row).head? = some ("date", v) := by
      intro v; cases v <;> rfl
    intro a b hab
    have := (hhead a).symm.trans ((congrArg List.head? hab).trans (hhead b))
    injection this with this
    exact (Prod.mk.injEq _ _ _ _).mp this |>.2
  · refine List.Nodup.map ?_ (List.nodup_dedup _)
    intro a b hab
    injection hab with h1 _
    exact ((Prod.mk.injEq _ _ _ _).mp h1).2

/-- The primary fact table of the dimension-derivation example: dates
2021-01-01, 2021-01-02, 2021-01-01 and countries A, B, A. -/
def exFact : DataFrame where
  cols := ["country", "date", "cases"]
  rows := [
    [("country", Value.vStr "A"), ("date", Value.vDate 2021 1 1), ("cases", Value.vInt 5)],
    [("country", Value.vStr "B"), ("date", Value.vDate 2021 1 2), ("cases", Value.vInt 7)],
    [("country", Value.vStr "A"), ("date", Value.vDate 2021 1 1), ("cases", Value.vInt 5)]]

/-- A database holding only the example fact table. -/
def exDbC6 : DBState := ⟨["fact"], [(("fact", "daily_cases"), exFact)]⟩

/-- The example database after `generate_calendar`. -/
def exDbC6a : DBState := (generate_calendar exDbC6).toOption.getD ⟨[], []⟩

/-- The example database after both dimension builders. -/
def exDbC6b : DBState := (generate_countries exDbC6a).toOption.getD ⟨[], []⟩

/-- Witness for C6 at the design-note example: the derived calendar has
exactly two decomposed rows and the country dimension exactly two rows. -/
theorem dimension_derivation_witness :
    ∃ cal ctry,
      readTable exDbC6b "dim" "calendar" = some cal ∧
      readTable exDbC6b "dim" "country" = some ctry ∧
      cal.cols = ["date", "year", "month", "day"] ∧
      cal.rows = ((exFact.rows.map (fun r => r.getD "date")).dedup).map
        (fun v => match v with
          | Value.vDate y m d =>
              [("date", Value.vDate y m d), ("year", Value.vInt y),
               ("month", Value.vInt m), ("day", Value.vInt d)]
          | w => [("date", w)]) ∧
      cal.rows.Nodup ∧
      ctry.cols = ["country"] ∧
      ctry.rows = ((exFact.rows.map (fun r => r.getD "country")).dedup).map
        (fun v => [("country", v)]) ∧
      ctry.rows.Nodup :=
  dimension_derivation exDbC6 exDbC6a exDbC6b exFact rfl
    (by
      intro r hr
      simp only [exFact, List.mem_cons, List.not_mem_nil, or_false] at hr
      rcases hr with rfl | rfl | rfl
      · exact ⟨2021, 1, 1, rfl⟩
      · exact ⟨2021, 1, 2, rfl⟩
      · exact ⟨2021, 1, 1, rfl⟩)
    (by decide) (by decide)

/-- A row of the left frame survives the double join against the two
single-column dimension selections exactly when its date value occurs in the
calendar table and its country value occurs in the country table — the two
membership tests are independent of one another. -/
theorem join_mem_iff {dfT cal ctry m1 m2 : DataFrame} {r : Row} {dv cv : Value}
    (hm1 : dfT.merge (selectDistinct cal "date") = Except.ok m1)
    (hm2 : m1.merge (selectDistinct ctry "country") = Except.ok m2)
    (hr : r ∈ dfT.rows)
    (hrd : r.get "date" = some dv)
    (hrc : r.get "country" = some cv) :
    r ∈ m2.rows ↔
      dv ∈ cal.rows.map (fun rr => rr.getD "date") ∧
      cv ∈ ctry.rows.map (fun rr => rr.getD "country") := by
  constructor
  · intro hmem
    obtain ⟨⟨dv', hdv', hdvmem⟩, ⟨cv', hcv', hcvmem⟩⟩ := join_rows_ref hm1 hm2 hmem
    rw [hrd] at hdv'
    injection hdv' with hdv'
    rw [hrc] at hcv'
    injection hcv' with hcv'
    exact ⟨hdv' ▸ hdvmem, hcv' ▸ hcvmem⟩
  · rintro ⟨hdvm, hcvm⟩
    have hkd := mergeKeys_singleton_right (selectDistinct_cols cal "date") hm1
    have hkc := mergeKeys_singleton_right (selectDistinct_cols ctry "country") hm2
    have hr2 : [("date", dv)] ∈ (selectDistinct cal "date").rows :=
      selectDistinct_rows_mem.mpr ⟨dv, List.mem_dedup.mpr hdvm, rfl⟩
    have hmatch1 : ∀ c ∈ mergeKeys dfT (selectDistinct cal "date"),
        r.get c = Row.get [("date", dv)] c := by
      intro c hcmem
      have hcd := mergeKeys_mem_right hcmem
      rw [selectDistinct_cols, List.mem_singleton] at hcd
      subst hcd
      rw [hrd, Row.get_singleton]
    have hm1mem := merge_rows_intro hm1 hr hr2 hmatch1
    have hfilt1 : List.filter (fun p => decide (p.1 ∉ dfT.cols))
        [(("date" : String), dv)] = [] := by
      simp [List.filter_cons, hkd.2]
    rw [hfilt1, List.append_nil] at hm1mem
    have hr3 : [("country", cv)] ∈ (selectDistinct ctry "country").rows :=
      selectDistinct_rows_mem.mpr ⟨cv, List.mem_dedup.mpr hcvm, rfl⟩
    have hmatch2 : ∀ c ∈ mergeKeys m1 (selectDistinct ctry "country"),
        r.get c = Row.get [("country", cv)] c := by
      intro c hcmem
      have hcd := mergeKeys_mem_right hcmem
      rw [selectDistinct_cols, List.mem_singleton] at hcd
      subst hcd
      rw [hrc, Row.get_singleton]
    have hm2mem := merge_rows_intro hm2 hm1mem hr3 hmatch2
    have hfilt2 : List.filter (fun p => decide (p.1 ∉ m1.cols))
        [(("country" : String), cv)] = [] := by
      simp [List.filter_cons, hkc.2]
    rw [hfilt2, List.append_nil] at hm2mem
    exact hm2mem

/-- C2: for every downstream fact ingest (deaths, vaccinations, hospital
admissions, excess mortality), an input row survives the referential join if
and only if its date value occurs anywhere in the calendar dimension AND its
country value occurs anywhere in the country dimension — two independent
single-column membership tests, not a compound-key test on the (date,
country) pair. -/
theorem single_column_join_semantics (db : DBState) (cal ctry : DataFrame)
    (hcal : readTable db "dim" "calendar" = some cal)
    (hctry : readTable db "dim" "country" = some ctry) :
    (∀ df0 dfd db' r dv cv,
      df0.drop ["continent"] true = Except.ok dfd →
      pull_deaths (Except.ok df0) db = Except.ok db' →
      r ∈ (dfd.rename "location" "country").rows →
      r.get "date" = some dv → r.get "country" = some cv →
      ∃ out, readTable db' "fact" "daily_deaths" = some out ∧
        (r ∈ out.rows ↔
          dv ∈ cal.rows.map (fun rr => rr.getD "date") ∧
          cv ∈ ctry.rows.map (fun rr => rr.getD "country"))) ∧
    (∀ v0 db' r dv cv,
      pull_vaccinations (Except.ok v0) db = Except.ok db' →
      r ∈ (v0.rename "location" "country").rows →
      r.get "date" = some dv → r.get "country" = some cv →
      ∃ out, readTable db' "fact" "daily_vaccinations" = some out ∧
        (r ∈ out.rows ↔
          dv ∈ cal.rows.map (fun rr => rr.getD "date") ∧
          cv ∈ ctry.rows.map (fun rr => rr.getD "country"))) ∧
    (∀ h0 db' r dv cv,
      pull_hospital_admissions (Except.ok h0) db = Except.ok db' →
      r ∈ (h0.rename "location" "country").rows →
      r.get "date" = some dv → r.get "country" = some cv →
      ∃ out, readTable db' "fact" "daily_hospital_admissions" = some out ∧
        (r ∈ out.rows ↔
          dv ∈ cal.rows.map (fun rr => rr.getD "date") ∧
          cv ∈ ctry.rows.map (fun rr => rr.getD "country"))) ∧
    (∀ e0 db' r dv cv,
      pull_excess_mortality (Except.ok e0) db = Except.ok db' →
      r ∈ (e0.rename "location" "country").rows →
      r.get "date" = some dv → r.get "country" = some cv →
      ∃ out, readTable db' "fact" "daily_excess_mortality" = some out ∧
        (r ∈ out.rows ↔
          dv ∈ cal.rows.map (fun rr => rr.getD "date") ∧
          cv ∈ ctry.rows.map (fun rr => rr.getD "country"))) := by
  refine ⟨?_, ?_, ?_, ?_⟩
  · intro df0 dfd db' r dv cv hdrop hrun hr hrd hrc
    obtain ⟨d0', dfd', cal', ctry', m1, m2, hf, hdrop', hcal', hctry', hm1, hm2, hdb'⟩ :=
      pull_deaths_ok_elim hrun
    injection hf with hf
    subst hf
    rw [hdrop] at hdrop'
    injection hdrop' with hdrop'
    subst hdrop'
    rw [hcal] at hcal'
    injection hcal' with hcal'
    subst hcal'
    rw [hctry] at hctry'
    injection hctry' with hctry'
    subst hctry'
    subst hdb'
    exact ⟨m2, by simp [readTable_write], join_mem_iff hm1 hm2 hr hrd hrc⟩
  · intro v0 db' r dv cv hrun hr hrd hrc
    obtain ⟨v0', cal', ctry', m1, m2, hf, hcal', hctry', hm1, hm2, hdb'⟩ :=
      pull_vaccinations_ok_elim hrun
    injection hf with hf
    subst hf
    rw [hcal] at hcal'
    injection hcal' with hcal'
    subst hcal'
    rw [hctry] at hctry'
    injection hctry' with hctry'
    subst hctry'
    subst hdb'
    exact ⟨m2, by simp [readTable_write], join_mem_iff hm1 hm2 hr hrd hrc⟩
  · intro h0 db' r dv cv hrun hr hrd hrc
    obtain ⟨h0', cal', ctry', m1, m2, hf, hcal', hctry', hm1, hm2, hdb'⟩ :=
      pull_hospital_admissions_ok_elim hrun
    injection hf with hf
    subst hf
    rw [hcal] at hcal'
    injection hcal' with hcal'
    subst hcal'
    rw [hctry] at hctry'
    injection hctry' with hctry'
    subst hctry'
    subst hdb'
    exact ⟨m2, by simp [readTable_write], join_mem_iff hm1 hm2 hr hrd hrc⟩
  · intro e0 db' r dv cv hrun hr hrd hrc
    obtain ⟨e0', cal', ctry', m1, m2, hf, hcal', hctry', hm1, hm2, hdb'⟩ :=
      pull_excess_mortality_ok_elim hrun
    injection hf with hf
    subst hf
    rw [hcal] at hcal'
    injection hcal' with hcal'
    subst hcal'
    rw [hctry] at hctry'
    injection hctry' with hctry'
    subst hctry'
    subst hdb'
    exact ⟨m2, by simp [readTable_write], join_mem_iff hm1 hm2 hr hrd hrc⟩

/-- State after running the vaccinations ingest on the example dimensions. -/
def exDbVacc : DBState :=
  (pull_vaccinations (Except.ok exDeaths) exDbDims).toOption.getD ⟨[], []⟩

/-- Witness for C2: for both the deaths and the vaccinations ingest, the
input row with country A and date 2021-01-01 survives the join against the
example dimensions exactly because its date and its country are each present
in the respective dimension. -/
theorem single_column_join_semantics_witness :
    (∃ out, readTable exDbDeaths "fact" "daily_deaths" = some out ∧
      ([(("country" : String), Value.vStr "A"), ("date", Value.vDate 2021 1 1),
        ("deaths", Value.vInt 1)] ∈ out.rows ↔
        Value.vDate 2021 1 1 ∈ exCal.rows.map (fun rr => rr.getD "date") ∧
        Value.vStr "A" ∈ exCtry.rows.map (fun rr => rr.getD "country"))) ∧
    (∃ out, readTable exDbVacc "fact" "daily_vaccinations" = some out ∧
      ([(("continent" : String), Value.vStr "X"), ("country", Value.vStr "A"),
        ("date", Value.vDate 2021 1 1), ("deaths", Value.vInt 1)] ∈ out.rows ↔
        Value.vDate 2021 1 1 ∈ exCal.rows.map (fun rr => rr.getD "date") ∧
        Value.vStr "A" ∈ exCtry.rows.map (fun rr => rr.getD "country"))) :=
  ⟨(single_column_join_semantics exDbDims exCal exCtry (by decide) (by decide)).1
      exDeaths exDeathsDropped exDbDeaths
      [("country", Value.vStr "A"), ("date", Value.vDate 2021 1 1),
       ("deaths", Value.vInt 1)]
      (Value.vDate 2021 1 1) (Value.vStr "A")
      (by decide) (by decide) (by decide) (by decide) (by decide),
   (single_column_join_semantics exDbDims exCal exCtry (by decide) (by decide)).2.1
      exDeaths exDbVacc
      [("continent", Value.vStr "X"), ("country", Value.vStr "A"),
       ("date", Value.vDate 2021 1 1), ("deaths", Value.vInt 1)]
      (Value.vDate 2021 1 1) (Value.vStr "A")
      (by decide) (by decide) (by decide) (by decide)⟩

/-- A label listed in a tolerant drop is absent from the result's header. -/
theorem drop_labels_not_mem {df out : DataFrame} {labels : List String}
    (h : df.drop labels true = Except.ok out) {x : String} (hx : x ∈ labels) :
    x ∉ out.cols := by
  rw [DataFrame.drop_ignore] at h
  injection h with h
  subst h
  intro hmem
  have h2 := (List.mem_filter.mp hmem).2
  rw [decide_eq_true_eq] at h2
  exact h2 hx

/-- The double join against the two single-column dimension selections always
carries a `country` column. -/
theorem joined_mem_country {m1 ctry m2 : DataFrame}
    (hm2 : m1.merge (selectDistinct ctry "country") = Except.ok m2) :
    "country" ∈ m2.cols :=
  (merge_cols_mem hm2).mpr (Or.inr (by
    rw [selectDistinct_cols]; exact List.mem_singleton.mpr rfl))

/-- A column absent from the fetched frame and distinct from the two join
columns is absent from the double-join output. -/
theorem joined_not_mem {dfT cal ctry m1 m2 : DataFrame}
    (hm1 : dfT.merge (selectDistinct cal "date") = Except.ok m1)
    (hm2 : m1.merge (selectDistinct ctry "country") = Except.ok m2)
    {x : String} (hx : x ∉ dfT.cols) (hxd : x ≠ "date") (hxc : x ≠ "country") :
    x ∉ m2.cols := by
  intro hmem
  rcases (merge_cols_mem hm2).mp hmem with h1 | h2
  · rcases (merge_cols_mem hm1).mp h1 with h3 | h4
    · exact hx h3
    · rw [selectDistinct_cols, List.mem_singleton] at h4
      exact hxd h4
  · rw [selectDistinct_cols, List.mem_singleton] at h2
    exact hxc h2

/-- C5: every persisted fact table has the canonical `country` column and no
`location` column (the source's location column having been renamed), and the
persisted deaths fact table has no `continent` column. -/
theorem column_normalization (src : RemoteSource) (db db' : DBState) (c0 : DataFrame)
    (h : runPipeline src db = Except.ok db')
    (hc0 : src.casesData = Except.ok c0)
    (hlc : "location" ∈ c0.cols) :
    ∃ t1 t2 t3 t4 t5,
      readTable db' "fact" "daily_cases" = some t1 ∧
        "country" ∈ t1.cols ∧ "location" ∉ t1.cols ∧
      readTable db' "fact" "daily_deaths" = some t2 ∧
        "country" ∈ t2.cols ∧ "location" ∉ t2.cols ∧ "continent" ∉ t2.cols ∧
      readTable db' "fact" "daily_vaccinations" = some t3 ∧
        "country" ∈ t3.cols ∧ "location" ∉ t3.cols ∧
      readTable db' "fact" "daily_hospital_admissions" = some t4 ∧
        "country" ∈ t4.cols ∧ "location" ∉ t4.cols ∧
      readTable db' "fact" "daily_excess_mortality" = some t5 ∧
        "country" ∈ t5.cols ∧ "location" ∉ t5.cols := by
  obtain ⟨c0', d0, v0, h0, e0, dfd, calF, m1d, m2d, m1v, m2v, m1h, m2h, m1e, m2e,
    hf1, hf2, hf3, hf4, hf5, hdrop, hadd, hm1d, hm2d, hm1v, hm2v, hm1h, hm2h,
    hm1e, hm2e, hdb'⟩ := runPipeline_ok_elim h
  rw [hc0] at hf1
  injection hf1 with hf1
  subst hf1
  subst hdb'
  have hloc : ("location" : String) ≠ "country" := by decide
  refine ⟨c0.rename "location" "country", m2d, m2v, m2h, m2e,
    by simp [readTable_write, readTable_db_create_schema],
    rename_mem_new hlc, rename_not_mem_old hloc,
    by simp [readTable_write, readTable_db_create_schema],
    joined_mem_country hm2d,
    joined_not_mem hm1d hm2d (rename_not_mem_old hloc) (by decide) (by decide),
    joined_not_mem hm1d hm2d
      (rename_not_mem_other (drop_labels_not_mem hdrop (by decide)) (by decide))
      (by decide) (by decide),
    by simp [readTable_write, readTable_db_create_schema],
    joined_mem_country hm2v,
    joined_not_mem hm1v hm2v (rename_not_mem_old hloc) (by decide) (by decide),
    by simp [readTable_write, readTable_db_create_schema],
    joined_mem_country hm2h,
    joined_not_mem hm1h hm2h (rename_not_mem_old hloc) (by decide) (by decide),
    by simp [readTable_write, readTable_db_create_schema],
    joined_mem_country hm2e,
    joined_not_mem hm1e hm2e (rename_not_mem_old hloc) (by decide) (by decide)⟩

/-- Witness for C5 at the concrete example run. -/
theorem column_normalization_witness :
    ∃ t1 t2 t3 t4 t5,
      readTable exDb1 "fact" "daily_cases" = some t1 ∧
        "country" ∈ t1.cols ∧ "location" ∉ t1.cols ∧
      readTable exDb1 "fact" "daily_deaths" = some t2 ∧
        "country" ∈ t2.cols ∧ "location" ∉ t2.cols ∧ "continent" ∉ t2.cols ∧
      readTable exDb1 "fact" "daily_vaccinations" = some t3 ∧
        "country" ∈ t3.cols ∧ "location" ∉ t3.cols ∧
      readTable exDb1 "fact" "daily_hospital_admissions" = some t4 ∧
        "country" ∈ t4.cols ∧ "location" ∉ t4.cols ∧
      readTable exDb1 "fact" "daily_excess_mortality" = some t5 ∧
        "country" ∈ t5.cols ∧ "location" ∉ t5.cols :=
  column_normalization exSrc ⟨[], []⟩ exDb1 exCases (by decide) rfl (by decide)

/-- C1: after any successful pipeline run, every row of every downstream fact
table has its date value in the stored date dimension's set of dates and its
country value in the stored country dimension's set of countries. -/
theorem referential_integrity (src : RemoteSource) (db db' : DBState)
    (h : runPipeline src db = Except.ok db') :
    ∃ cal ctry,
      readTable db' "dim" "calendar" = some cal ∧
      readTable db' "dim" "country" = some ctry ∧
      ∀ t ∈ ["daily_deaths", "daily_vaccinations", "daily_hospital_admissions",
             "daily_excess_mortality"],
        ∃ out, readTable db' "fact" t = some out ∧
          ∀ r ∈ out.rows,
            r.getD "date" ∈ cal.rows.map (fun rr => rr.getD "date") ∧
            r.getD "country" ∈ ctry.rows.map (fun rr => rr.getD "country") := by
  obtain ⟨c0, d0, v0, h0, e0, dfd, calF, m1d, m2d, m1v, m2v, m1h, m2h, m1e, m2e,
    hf1, hf2, hf3, hf4, hf5, hdrop, hadd, hm1d, hm2d, hm1v, hm2v, hm1h, hm2h,
    hm1e, hm2e, hdb'⟩ := runPipeline_ok_elim h
  subst hdb'
  refine ⟨calF, selectDistinct (c0.rename "location" "country") "country",
    by simp [readTable_write, readTable_db_create_schema],
    by simp [readTable_write, readTable_db_create_schema], ?_⟩
  intro t ht
  have hpoint : ∀ {m1x m2x : DataFrame} {dfx : DataFrame},
      dfx.merge (selectDistinct calF "date") = Except.ok m1x →
      m1x.merge (selectDistinct
        (selectDistinct (c0.rename "location" "country") "country") "country") =
        Except.ok m2x →
      ∀ r ∈ m2x.rows,
        r.getD "date" ∈ calF.rows.map (fun rr => rr.getD "date") ∧
        r.getD "country" ∈ (selectDistinct (c0.rename "location" "country")
          "country").rows.map (fun rr => rr.getD "country") := by
    intro m1x m2x dfx hx1 hx2 r hr
    obtain ⟨⟨dv, hgd, hdmem⟩, ⟨cv, hgc, hcmem⟩⟩ := join_rows_ref hx1 hx2 hr
    rw [Row.getD_eq_of_get hgd, Row.getD_eq_of_get hgc]
    exact ⟨hdmem, hcmem⟩
  simp only [List.mem_cons, List.not_mem_nil, or_false] at ht
  rcases ht with rfl | rfl | rfl | rfl
  · exact ⟨m2d, by simp [readTable_write, readTable_db_create_schema],
      hpoint hm1d hm2d⟩
  · exact ⟨m2v, by simp [readTable_write, readTable_db_create_schema],
      hpoint hm1v hm2v⟩
  · exact ⟨m2h, by simp [readTable_write, readTable_db_create_schema],
      hpoint hm1h hm2h⟩
  · exact ⟨m2e, by simp [readTable_write, readTable_db_create_schema],
      hpoint hm1e hm2e⟩

/-- Witness for C1 at the concrete example run. -/
theorem referential_integrity_witness :
    ∃ cal ctry,
      readTable exDb1 "dim" "calendar" = some cal ∧
      readTable exDb1 "dim" "country" = some ctry ∧
      ∀ t ∈ ["daily_deaths", "daily_vaccinations", "daily_hospital_admissions",
             "daily_excess_mortality"],
        ∃ out, readTable exDb1 "fact" t = some out ∧
          ∀ r ∈ out.rows,
            r.getD "date" ∈ cal.rows.map (fun rr => rr.getD "date") ∧
            r.getD "country" ∈ ctry.rows.map (fun rr => rr.getD "country") :=
  referential_integrity exSrc ⟨[], []⟩ exDb1 (by decide)

/-- A successful pipeline run is a fixed point: running the pipeline again on
its own output (with the same remote snapshot) succeeds and changes nothing. -/
theorem runPipeline_stable {src : RemoteSource} {db db₁ : DBState}
    (h : runPipeline src db = Except.ok db₁) :
    runPipeline src db₁ = Except.ok db₁ := by
  obtain ⟨c0, d0, v0, h0, e0, dfd, calF, m1d, m2d, m1v, m2v, m1h, m2h, m1e, m2e,
    hf1, hf2, hf3, hf4, hf5, hdrop, hadd, hm1d, hm2d, hm1v, hm2v, hm1h, hm2h,
    hm1e, hm2e, hdb'⟩ := runPipeline_ok_elim h
  subst hdb'
  have hsf : ("fact" : String) ∈ (write_data_to_db m2e "daily_excess_mortality" "fact"
      (write_data_to_db m2h "daily_hospital_admissions" "fact"
        (write_data_to_db m2v "daily_vaccinations" "fact"
          (write_data_to_db m2d "daily_deaths" "fact"
            (write_data_to_db
              (selectDistinct (c0.rename "location" "country") "country")
              "country" "dim"
              (db_create_schema "dim"
                (write_data_to_db calF "calendar" "dim"
                  (db_create_schema "dim"
                    (write_data_to_db (c0.rename "location" "country")
                      "daily_cases" "fact"
                      (db_create_schema "fact" db)))))))))).schemas := by
    simp [schemas_write, mem_schemas_db_create_schema]
  have hsd : ("dim" : String) ∈ (write_data_to_db m2e "daily_excess_mortality" "fact"
      (write_data_to_db m2h "daily_hospital_admissions" "fact"
        (write_data_to_db m2v "daily_vaccinations" "fact"
          (write_data_to_db m2d "daily_deaths" "fact"
            (write_data_to_db
              (selectDistinct (c0.rename "location" "country") "country")
              "country" "dim"
              (db_create_schema "dim"
                (write_data_to_db calF "calendar" "dim"
                  (db_create_schema "dim"
                    (write_data_to_db (c0.rename "location" "country")
                      "daily_cases" "fact"
                      (db_create_schema "fact" db)))))))))).schemas := by
    simp [schemas_write, mem_schemas_db_create_schema]
  have hrc : readTable (write_data_to_db m2e "daily_excess_mortality" "fact"
      (write_data_to_db m2h "daily_hospital_admissions" "fact"
        (write_data_to_db m2v "daily_vaccinations" "fact"
          (write_data_to_db m2d "daily_deaths" "fact"
            (write_data_to_db
              (selectDistinct (c0.rename "location" "country") "country")
              "country" "dim"
              (db_create_schema "dim"
                (write_data_to_db calF "calendar" "dim"
                  (db_create_schema "dim"
                    (write_data_to_db (c0.rename "location" "country")
                      "daily_cases" "fact"
                      (db_create_schema "fact" db)))))))))) "fact" "daily_cases" =
      some (c0.rename "location" "country") := by
    simp [readTable_write, readTable_db_create_schema]
  have hrcal : readTable (write_data_to_db m2e "daily_excess_mortality" "fact"
      (write_data_to_db m2h "daily_hospital_admissions" "fact"
        (write_data_to_db m2v "daily_vaccinations" "fact"
          (write_data_to_db m2d "daily_deaths" "fact"
            (write_data_to_db
              (selectDistinct (c0.rename "location" "country") "country")
              "country" "dim"
              (db_create_schema "dim"
                (write_data_to_db calF "calendar" "dim"
                  (db_create_schema "dim"
                    (write_data_to_db (c0.rename "location" "country")
                      "daily_cases" "fact"
                      (db_create_schema "fact" db)))))))))) "dim" "calendar" =
      some calF := by
    simp [readTable_write, readTable_db_create_schema]
  have hrco : readTable (write_data_to_db m2e "daily_excess_mortality" "fact"
      (write_data_to_db m2h "daily_hospital_admissions" "fact"
        (write_data_to_db m2v "daily_vaccinations" "fact"
          (write_data_to_db m2d "daily_deaths" "fact"
            (write_data_to_db
              (selectDistinct (c0.rename "location" "country") "country")
              "country" "dim"
              (db_create_schema "dim"
                (write_data_to_db calF "calendar" "dim"
                  (db_create_schema "dim"
                    (write_data_to_db (c0.rename "location" "country")
                      "daily_cases" "fact"
                      (db_create_schema "fact" db)))))))))) "dim" "country" =
      some (selectDistinct (c0.rename "location" "country") "country") := by
    simp [readTable_write, readTable_db_create_schema]
  have hrd : readTable (write_data_to_db m2e "daily_excess_mortality" "fact"
      (write_data_to_db m2h "daily_hospital_admissions" "fact"
        (write_data_to_db m2v "daily_vaccinations" "fact"
          (write_data_to_db m2d "daily_deaths" "fact"
            (write_data_to_db
              (selectDistinct (c0.rename "location" "country") "country")
              "country" "dim"
              (db_create_schema "dim"
                (write_data_to_db calF "calendar" "dim"
                  (db_create_schema "dim"
                    (write_data_to_db (c0.rename "location" "country")
                      "daily_cases" "fact"
                      (db_create_schema "fact" db)))))))))) "fact" "daily_deaths" =
      some m2d := by
    simp [readTable_write, readTable_db_create_schema]
  have hrv : readTable (write_data_to_db m2e "daily_excess_mortality" "fact"
      (write_data_to_db m2h "daily_hospital_admissions" "fact"
        (write_data_to_db m2v "daily_vaccinations" "fact"
          (write_data_to_db m2d "daily_deaths" "fact"
            (write_data_to_db
              (selectDistinct (c0.rename "location" "country") "country")
              "country" "dim"
              (db_create_schema "dim"
                (write_data_to_db calF "calendar" "dim"
                  (db_create_schema "dim"
                    (write_data_to_db (c0.rename "location" "country")
                      "daily_cases" "fact"
                      (db_create_schema "fact" db)))))))))) "fact" "daily_vaccinations" =
      some m2v := by
    simp [readTable_write, readTable_db_create_schema]
  have hrh : readTable (write_data_to_db m2e "daily_excess_mortality" "fact"
      (write_data_to_db m2h "daily_hospital_admissions" "fact"
        (write_data_to_db m2v "daily_vaccinations" "fact"
          (write_data_to_db m2d "daily_deaths" "fact"
            (write_data_to_db
              (selectDistinct (c0.rename "location" "country") "country")
              "country" "dim"
              (db_create_schema "dim"
                (write_data_to_db calF "calendar" "dim"
                  (db_create_schema "dim"
                    (write_data_to_db (c0.rename "location" "country")
                      "daily_cases" "fact"
                      (db_create_schema "fact" db)))))))))) "fact"
      "daily_hospital_admissions" = some m2h := by
    simp [readTable_write, readTable_db_create_schema]
  have hre : readTable (write_data_to_db m2e "daily_excess_mortality" "fact"
      (write_data_to_db m2h "daily_hospital_admissions" "fact"
        (write_data_to_db m2v "daily_vaccinations" "fact"
          (write_data_to_db m2d "daily_deaths" "fact"
            (write_data_to_db
              (selectDistinct (c0.rename "location" "country") "country")
              "country" "dim"
              (db_create_schema "dim"
                (write_data_to_db calF "calendar" "dim"
                  (db_create_schema "dim"
                    (write_data_to_db (c0.rename "location" "country")
                      "daily_cases" "fact"
                      (db_create_schema "fact" db)))))))))) "fact"
      "daily_excess_mortality" = some m2e := by
    simp [readTable_write, readTable_db_create_schema]
  unfold runPipeline
  rw [hf1, pull_cases_intro, db_create_schema_of_mem hsf, write_eq_of_readTable hrc,
    except_bind_ok]
  rw [generate_calendar_intro hrc hadd, db_create_schema_of_mem hsd,
    write_eq_of_readTable hrcal, except_bind_ok]
  rw [generate_countries_intro hrc, db_create_schema_of_mem hsd,
    write_eq_of_readTable hrco, except_bind_ok]
  rw [hf2, pull_deaths_intro hdrop hrcal hrco hm1d hm2d,
    write_eq_of_readTable hrd, except_bind_ok]
  rw [hf3, pull_vaccinations_intro hrcal hrco hm1v hm2v,
    write_eq_of_readTable hrv, except_bind_ok]
  rw [hf4, pull_hospital_admissions_intro hrcal hrco hm1h hm2h,
    write_eq_of_readTable hrh, except_bind_ok]
  rw [hf5, pull_excess_mortality_intro hrcal hrco hm1e hm2e,
    write_eq_of_readTable hre, except_bind_ok]

/-- C4: every write replaces the prior contents of its storage target, so
running the full pipeline twice with an unchanged remote source yields the
very same final database state — no duplication, no accumulation. -/
theorem idempotent_replace (src : RemoteSource) (db db₁ db₂ : DBState)
    (h1 : runPipeline src db = Except.ok db₁)
    (h2 : runPipeline src db₁ = Except.ok db₂) : db₂ = db₁ := by
  have hs := runPipeline_stable h1
  rw [h2] at hs
  exact Except.ok.inj hs

/-- Witness for C4: a second run of the example pipeline reproduces the first
run's final state exactly. -/
theorem idempotent_replace_witness : exDb2 = exDb1 :=
  idempotent_replace exSrc ⟨[], []⟩ exDb1 exDb2 (by decide) (by decide)

end Covid19
